import Mathlib

/-!
Verification development for the sweet compiler core (lexer, parser,
type checker, importer, code generator). Each Python source file under
src/core is shallowly embedded: Python classes become structures and
inductives, methods become functions, exceptions become `Except String`,
dictionaries become insertion-ordered association lists, and recursion
that Python drives with while loops is driven here by an explicit fuel
argument (fuel exhaustion is an error value that never occurs for the
inputs evaluated).
-/

namespace Sweet

/-- TokenType from src/core/lexer.py: one constructor per enum member,
including both NE and NOT_EQ, which the source declares separately
(both documented as the token for the != symbol). -/
inductive TokenType where
  | NLIT | FLIT | CLIT | SLIT | BLIT | IDENT | KEYWORD
  | PLUS | MINUS | STAR | SLASH | PERCENT | ASSIGN
  | EQ | NE | LT | GT | LE | GE | ARROW | NOT
  | AND | OR | XOR | AND_AND | OR_OR | NOT_EQ
  | XOR_ASSIGN | AND_ASSIGN | OR_ASSIGN
  | DOT | SEMICOLON | COLON
  | LPAREN | RPAREN | LBRACKET | RBRACKET | LBRACE | RBRACE
  | COMMA | DOTS | EOF
deriving DecidableEq, Repr

/-- How Python's str() prints a member of the TokenType enum, as used in
error message interpolation (f-strings write e.g. "TokenType.NE"). -/
def tokenTypeStr : TokenType → String
  | .NLIT => "TokenType.NLIT"
  | .FLIT => "TokenType.FLIT"
  | .CLIT => "TokenType.CLIT"
  | .SLIT => "TokenType.SLIT"
  | .BLIT => "TokenType.BLIT"
  | .IDENT => "TokenType.IDENT"
  | .KEYWORD => "TokenType.KEYWORD"
  | .PLUS => "TokenType.PLUS"
  | .MINUS => "TokenType.MINUS"
  | .STAR => "TokenType.STAR"
  | .SLASH => "TokenType.SLASH"
  | .PERCENT => "TokenType.PERCENT"
  | .ASSIGN => "TokenType.ASSIGN"
  | .EQ => "TokenType.EQ"
  | .NE => "TokenType.NE"
  | .LT => "TokenType.LT"
  | .GT => "TokenType.GT"
  | .LE => "TokenType.LE"
  | .GE => "TokenType.GE"
  | .ARROW => "TokenType.ARROW"
  | .NOT => "TokenType.NOT"
  | .AND => "TokenType.AND"
  | .OR => "TokenType.OR"
  | .XOR => "TokenType.XOR"
  | .AND_AND => "TokenType.AND_AND"
  | .OR_OR => "TokenType.OR_OR"
  | .NOT_EQ => "TokenType.NOT_EQ"
  | .XOR_ASSIGN => "TokenType.XOR_ASSIGN"
  | .AND_ASSIGN => "TokenType.AND_ASSIGN"
  | .OR_ASSIGN => "TokenType.OR_ASSIGN"
  | .DOT => "TokenType.DOT"
  | .SEMICOLON => "TokenType.SEMICOLON"
  | .COLON => "TokenType.COLON"
  | .LPAREN => "TokenType.LPAREN"
  | .RPAREN => "TokenType.RPAREN"
  | .LBRACKET => "TokenType.LBRACKET"
  | .RBRACKET => "TokenType.RBRACKET"
  | .LBRACE => "TokenType.LBRACE"
  | .RBRACE => "TokenType.RBRACE"
  | .COMMA => "TokenType.COMMA"
  | .DOTS => "TokenType.DOTS"
  | .EOF => "TokenType.EOF"

/-- A Python numeric value as the lexer produces it: an int (from NLIT)
or a float (from FLIT). The float payload is kept as an exact rational;
the decimal literals the lexer accepts determine it exactly and no claim
depends on binary rounding. -/
inductive PyNum where
  | int (n : Int)
  | float (q : Rat)
deriving DecidableEq, Repr

/-- Negation of a Python number (used by the parser's unary minus fold). -/
def PyNum.neg : PyNum → PyNum
  | .int n => .int (-n)
  | .float q => .float (-q)

/-- str() of a Python number as interpolated into assembly text. Floats never
reach code generation in the programs evaluated here. -/
def pyNumStr : PyNum → String
  | .int n => toString n
  | .float q => toString q

/-- The dynamically typed `value` slot of a Token: None, a string, an int,
a float or a bool, depending on the token kind. -/
inductive TokenValue where
  | none
  | str (s : String)
  | int (n : Int)
  | float (q : Rat)
  | bool (b : Bool)
deriving DecidableEq, Repr

/-- Token from src/core/lexer.py. -/
structure Token where
  type_ : TokenType
  value : TokenValue
  line : Int
  column : Int
deriving DecidableEq, Repr

/-- Type from src/core/typechecker.py: a dataclass with exactly these four
fields; the derived equality compares all four, as Type.__eq__ does. -/
structure Ty where
  name : String
  pointer_level : Nat := 0
  is_array : Bool := false
  size : Option Int := none
deriving DecidableEq, Repr

def optIntStr : Option Int → String
  | some n => toString n
  | none => "None"

/-- Type.__repr__: name, one star per pointer level, and [size] for arrays. -/
def tyRepr (t : Ty) : String :=
  t.name ++ String.mk (List.replicate t.pointer_level '*') ++
    (if t.is_array then "[" ++ optIntStr t.size ++ "]" else "")

def Ty.is_integer (t : Ty) : Bool :=
  t.pointer_level = 0 &&
    ["u8", "u16", "u32", "u64", "i8", "i16", "i32", "i64",
     "usize", "isize", "int", "uint", "char"].contains t.name

def Ty.is_signed (t : Ty) : Bool :=
  t.pointer_level = 0 &&
    ["i8", "i16", "i32", "i64", "isize", "int"].contains t.name

def Ty.is_unsigned (t : Ty) : Bool :=
  t.pointer_level = 0 &&
    ["u8", "u16", "u32", "u64", "usize", "uint", "char"].contains t.name

def Ty.is_char (t : Ty) : Bool :=
  t.pointer_level = 0 && t.name = "char"

def Ty.is_string (t : Ty) : Bool :=
  t.pointer_level = 0 && t.name = "string"

def Ty.is_bool (t : Ty) : Bool :=
  t.pointer_level = 0 && t.name = "bool"

def Ty.is_float (t : Ty) : Bool :=
  t.pointer_level = 0 && ["f32", "f64"].contains t.name

def Ty.can_have_len_property (t : Ty) : Bool :=
  t.is_array

/-- Type.is_compatible_with, clause for clause. -/
def Ty.is_compatible_with (t other : Ty) : Bool :=
  if t = other then true
  else if (t.name = "string" && other.name = "u8" && other.pointer_level = 1) ||
          (other.name = "string" && t.name = "u8" && t.pointer_level = 1) then true
  else if (t.name = "string" && other.name = "char" && other.pointer_level = 1) ||
          (other.name = "string" && t.name = "char" && t.pointer_level = 1) then true
  else if t.pointer_level = 0 && other.pointer_level = 0 &&
          ((t.is_unsigned && other.name = "int") ||
           (t.is_signed && other.name = "uint") ||
           (t.is_char && (other.name = "u8" || other.name = "i8")) ||
           (other.is_char && (t.name = "u8" || t.name = "i8"))) then true
  else if (t.pointer_level > 0 || other.pointer_level > 0) &&
          t.pointer_level = other.pointer_level &&
          (t.name = other.name || t.name = "void" || other.name = "void" ||
           t.name = "char" || other.name = "char") then true
  else false

def voidTy : Ty := { name := "void" }

/-! Lexer (src/core/lexer.py). The source string is a character list; the
lexer state mirrors Lexer's pos/line/column/tokens attributes. -/

def nullChar : Char := Char.ofNat 0

/-- str.isspace for the characters that can occur in ASCII source text. -/
def pyIsSpace (c : Char) : Bool :=
  c = ' ' || c = '\t' || c = '\n' || c = '\r' || c.toNat = 11 || c.toNat = 12

/-- str.isalpha, restricted to the ASCII range of the source files. -/
def pyIsAlpha (c : Char) : Bool := c.isAlpha

def pyIsDigit (c : Char) : Bool := c.isDigit

def pyIsAlnum (c : Char) : Bool := pyIsAlpha c || pyIsDigit c

structure LexState where
  source : List Char
  pos : Nat
  line : Nat
  column : Nat
  tokens : List Token
deriving Repr

/-- Lexer.__init__'s keyword set. -/
def keywords : List String :=
  ["let", "if", "else", "while", "return", "fn", "const", "var", "import", "extern"]

/-- Lexer.__init__'s symbol table, in the source's dict order. -/
def symbols : List (String × TokenType) :=
  [("->", .ARROW), ("==", .EQ), ("!=", .NE), ("<=", .LE), (">=", .GE),
   ("=", .ASSIGN), ("+", .PLUS), ("-", .MINUS), ("*", .STAR), ("/", .SLASH),
   ("%", .PERCENT), ("<", .LT), (">", .GT), ("!", .NOT), ("&", .AND),
   ("|", .OR), ("^", .XOR), ("&&", .AND_AND), ("||", .OR_OR),
   ("^=", .XOR_ASSIGN), ("&=", .AND_ASSIGN), ("|=", .OR_ASSIGN),
   (".", .DOT), (";", .SEMICOLON), (":", .COLON), ("(", .LPAREN),
   (")", .RPAREN), ("[", .LBRACKET), ("]", .RBRACKET), ("\x7b", .LBRACE),
   ("\x7d", .RBRACE), (",", .COMMA), ("...", .DOTS)]

def dictLookup {α : Type} (d : List (String × α)) (k : String) : Option α :=
  (d.find? (fun p => p.1 = k)).map (fun p => p.2)

def dictContains {α : Type} (d : List (String × α)) (k : String) : Bool :=
  d.any (fun p => p.1 = k)

/-- Python dict assignment d[k] = v: replaces in place when the key exists,
appends otherwise (dicts preserve insertion order). -/
def dictSet {α : Type} (d : List (String × α)) (k : String) (v : α) :
    List (String × α) :=
  if dictContains d k then d.map (fun p => if p.1 = k then (k, v) else p)
  else d ++ [(k, v)]

def LexState.peek (st : LexState) (offset : Nat := 0) : Char :=
  st.source.getD (st.pos + offset) nullChar

def LexState.advance (st : LexState) : Char × LexState :=
  if st.source.length ≤ st.pos then (nullChar, st)
  else
    let c := st.source.getD st.pos nullChar
    let st1 := { st with pos := st.pos + 1 }
    if c = '\n' then (c, { st1 with line := st1.line + 1, column := 1 })
    else (c, { st1 with column := st1.column + 1 })

def LexState.advanceN (st : LexState) : Nat → LexState
  | 0 => st
  | n + 1 => (st.advance).2.advanceN n

def LexState.add_token (st : LexState) (t : TokenType)
    (v : TokenValue := .none) : LexState :=
  { st with tokens := st.tokens ++ [⟨t, v, (st.line : Int), (st.column : Int)⟩] }

/-- The classification at the end of Lexer.identifier (lexer.py lines
269-276): keyword set membership first, then the true/false boolean
literals, identifier otherwise. -/
def classify_identifier (value : String) : TokenType × TokenValue :=
  if keywords.contains value then (.KEYWORD, .str value)
  else if value = "true" then (.BLIT, .bool true)
  else if value = "false" then (.BLIT, .bool false)
  else (.IDENT, .str value)

/-- Lexer.identifier: consume the [A-Za-z0-9_]* run, then classify. The
while loop of advances is one advanceN over the run (no newline occurs in
the run, so line/column bookkeeping agrees step for step). -/
def Lexer.identifier (st : LexState) : LexState :=
  let word := (st.source.drop st.pos).takeWhile (fun c => pyIsAlnum c || c = '_')
  let st1 := st.advanceN word.length
  let p := classify_identifier (String.mk word)
  st1.add_token p.1 p.2

def digitsToNat (cs : List Char) : Nat :=
  cs.foldl (fun a c => a * 10 + (c.toNat - 48)) 0

/-- Lexer.number. The int()/float() conversions cannot fail on a digit run,
so the ValueError branches of the source are unreachable and the function is
total. Python's binary float is modelled by the literal's exact value. -/
def Lexer.number (st : LexState) : LexState :=
  let digits := (st.source.drop st.pos).takeWhile pyIsDigit
  let st1 := st.advanceN digits.length
  if st1.peek 0 = '.' && pyIsDigit (st1.peek 1) then
    let st2 := (st1.advance).2
    let frac := (st2.source.drop st2.pos).takeWhile pyIsDigit
    let st3 := st2.advanceN frac.length
    let q : Rat := (digitsToNat digits : Rat) +
      (digitsToNat frac : Rat) / ((10 : Rat) ^ frac.length)
    st3.add_token .FLIT (.float q)
  else
    st1.add_token .NLIT (.int (digitsToNat digits))

/-- Lexer.skip_line_comment: advance to the newline or the end. -/
def Lexer.skip_line_comment (st : LexState) : LexState :=
  let run := (st.source.drop st.pos).takeWhile (fun c => c ≠ '\n' && c ≠ nullChar)
  st.advanceN run.length

/-- Offset of the '*' of the first "*/" in a character list. -/
def findBlockClose : List Char → Option Nat
  | [] => none
  | '*' :: '/' :: _ => some 0
  | _ :: rest => (findBlockClose rest).map (fun n => n + 1)

/-- Lexer.skip_block_comment: advance past the matching "*" "/" pair, or
raise an unterminated-comment error at the position the scan ends. -/
def Lexer.skip_block_comment (st : LexState) : Except String LexState :=
  match findBlockClose (st.source.drop st.pos) with
  | some n => .ok (st.advanceN (n + 2))
  | none =>
    let stEnd := st.advanceN (st.source.length - st.pos)
    .error ("Line " ++ toString stEnd.line ++ ", Col " ++ toString stEnd.column ++
      ": Unterminated block comment")

/-- Lexer.match_symbol: greedy lengths 3, 2, 1 against the symbol table. -/
def Lexer.match_symbol (st : LexState) : Except String LexState :=
  let try_ : Nat → Option (TokenType × String) := fun len =>
    if st.pos + len ≤ st.source.length then
      let frag := String.mk ((st.source.drop st.pos).take len)
      (dictLookup symbols frag).map (fun t => (t, frag))
    else none
  match try_ 3 with
  | some (t, f) => .ok ((st.advanceN 3).add_token t (.str f))
  | none =>
  match try_ 2 with
  | some (t, f) => .ok ((st.advanceN 2).add_token t (.str f))
  | none =>
  match try_ 1 with
  | some (t, f) => .ok ((st.advanceN 1).add_token t (.str f))
  | none =>
    .error ("Line " ++ toString st.line ++ ", Col " ++ toString st.column ++
      ": Unknown symbol '" ++ String.mk [st.peek 0] ++ "'")

/-- Lexer.string: the body is the raw run up to the closing quote; each
newline in it bumps the line counter once in the loop body and once inside
advance, which the extra count below reproduces. -/
def Lexer.string_lit (st : LexState) : Except String LexState :=
  let start_line := st.line
  let start_col := st.column
  let st1 := (st.advance).2
  let body := (st1.source.drop st1.pos).takeWhile (fun c => c ≠ '"' && c ≠ nullChar)
  let st2 := st1.advanceN body.length
  let st2 := { st2 with line := st2.line + body.count '\n' }
  if st2.peek 0 ≠ '"' then
    .error ("Line " ++ toString start_line ++ ", Col " ++ toString start_col ++
      ": Unterminated string literal")
  else
    .ok (((st2.advance).2).add_token .SLIT (.str (String.mk body)))

/-- Lexer.char. -/
def Lexer.char_lit (st : LexState) : Except String LexState :=
  let start_line := st.line
  let start_col := st.column
  let st1 := (st.advance).2
  let (value, st2) :=
    if st1.peek 0 = '\\' then
      let st2 := (st1.advance).2
      let (esc, st3) := st2.advance
      (String.mk ['\\', esc], st3)
    else
      let (c, st2) := st1.advance
      (String.mk [c], st2)
  if st2.peek 0 ≠ '\'' then
    .error ("Line " ++ toString start_line ++ ", Col " ++ toString start_col ++
      ": Unterminated char literal")
  else
    .ok (((st2.advance).2).add_token .CLIT (.str value))

/-- Lexer.scan_tokens' while loop. Every iteration consumes at least one
character, so fuel of the source length plus one always suffices. -/
def Lexer.scan_loop : Nat → LexState → Except String LexState
  | 0, _ => .error "lexer fuel exhausted"
  | fuel + 1, st =>
    if st.pos < st.source.length then
      let c := st.peek 0
      if pyIsSpace c then scan_loop fuel (st.advance).2
      else if c = '/' then
        let st1 := (st.advance).2
        if st1.peek 0 = '/' then
          scan_loop fuel (Lexer.skip_line_comment (st1.advance).2)
        else if st1.peek 0 = '*' then do
          let st2 ← Lexer.skip_block_comment (st1.advance).2
          scan_loop fuel st2
        else scan_loop fuel (st1.add_token .SLASH)
      else if pyIsAlpha c || c = '_' then
        scan_loop fuel (Lexer.identifier st)
      else if pyIsDigit c then
        scan_loop fuel (Lexer.number st)
      else if c = '"' then do
        let st1 ← Lexer.string_lit st
        scan_loop fuel st1
      else if c = '\'' then do
        let st1 ← Lexer.char_lit st
        scan_loop fuel st1
      else do
        let st1 ← Lexer.match_symbol st
        scan_loop fuel st1
    else
      .ok (st.add_token .EOF)

/-- Lexer.scan_tokens on a source string. -/
def Lexer.scan_tokens (src : String) : Except String (List Token) :=
  let st0 : LexState := ⟨src.data, 0, 1, 1, []⟩
  (Lexer.scan_loop (src.data.length + 1) st0).map (fun st => st.tokens)

/-! AST (src/core/parser.py). One inductive with a constructor per node
class; the dynamically typed slots become the sum types below. Parameter
is a plain record (FunctionDef.parameters holds Parameter objects and the
checker reads their name and type_ attributes); ExternDecl.parameters
holds Type objects when built by the parser but Parameter objects when
built by the importer, hence ExternParam. -/

structure Param where
  name : String
  type_ : Ty
deriving DecidableEq, Repr

inductive ExternParam where
  | ty (t : Ty)
  | param (p : Param)
deriving DecidableEq, Repr

mutual
inductive Node where
  | numberLiteral (value : PyNum)
  | booleanLiteral (value : Bool)
  | stringLiteral (value : String)
  | charLiteral (value : String)
  | arrayLiteral (elements : List Node)
  | pointerLiteralAddr (address : Int)
  | pointerLiteralExpr (address : Node)
  | binaryOp (left : Node) (op : TokenType) (right : Node)
  | importNode (parts : List String) (imported_symbols : Option (List String))
  | functionCall (name : String) (arguments : List Node)
  | variableAccess (parts : List AccessPart)
  | returnNode (expression : Option Node)
  | functionDef (name : String) (parameters : List Param) (return_type : Option Ty)
      (body : List Node) (is_public : Bool)
  | variableDef (name : String) (type_ : Ty) (value : Option Node) (is_public : Bool)
  | assignment (name : AssignName) (value : Node)
  | externDecl (name : String) (is_variadic : Bool) (return_type : Ty)
      (parameters : List ExternParam) (var : Bool)
  | asmBlock (instructions : List String)
  | dereference (expr : Node)
  | castNode (expr : Node) (target_type : Ty)

/-- One entry of VariableAccess.parts: an identifier or an index expression. -/
inductive AccessPart where
  | ident (s : String)
  | index (e : Node)

/-- Assignment.name: a bare identifier string or a Dereference node. -/
inductive AssignName where
  | str (s : String)
  | node (n : Node)
end

/-- node.__class__.__name__ as the checker's dispatch and messages use it. -/
def nodeClassName : Node → String
  | .numberLiteral _ => "NumberLiteral"
  | .booleanLiteral _ => "BooleanLiteral"
  | .stringLiteral _ => "StringLiteral"
  | .charLiteral _ => "CharLiteral"
  | .arrayLiteral _ => "ArrayLiteral"
  | .pointerLiteralAddr _ => "PointerLiteral"
  | .pointerLiteralExpr _ => "PointerLiteral"
  | .binaryOp _ _ _ => "BinaryOp"
  | .importNode _ _ => "ImportNode"
  | .functionCall _ _ => "FunctionCall"
  | .variableAccess _ => "VariableAccess"
  | .returnNode _ => "ReturnNode"
  | .functionDef _ _ _ _ _ => "FunctionDef"
  | .variableDef _ _ _ _ => "VariableDef"
  | .assignment _ _ => "Assignment"
  | .externDecl _ _ _ _ _ => "ExternDecl"
  | .asmBlock _ => "AsmBlock"
  | .dereference _ => "Dereference"
  | .castNode _ _ => "Cast"

/-! Parser (src/core/parser.py). The state is the token list plus
current_index; recursion is fueled, each call from a body matched as
fuel + 1 passes fuel, and the fuel given by the entry points bounds the
recursion depth plus the tokens consumed. -/

structure PState where
  tokens : List Token
  current_index : Nat
deriving Repr

def PState.current (st : PState) : Token :=
  st.tokens.getD st.current_index ⟨.EOF, .none, -1, -1⟩

def PState.eat (st : PState) : Token × PState :=
  (st.current, { st with current_index := st.current_index + 1 })

/-- ParserError's message (the constructor shifts the column down by one). -/
def parserErrorMsg (message : String) (line column : Int) : String :=
  "Line " ++ toString line ++ ", Col " ++ toString (column - 1) ++ ": " ++ message

def Parser.expect (st : PState) (t : TokenType) : Except String (Token × PState) :=
  if st.current.type_ = t then .ok st.eat
  else .error (parserErrorMsg
    ("Expected " ++ tokenTypeStr t ++ ", got " ++ tokenTypeStr st.current.type_)
    st.current.line st.current.column)

/-- The str payload of a token value; IDENT and KEYWORD tokens always carry
one. -/
def TokenValue.asStr : TokenValue → String
  | .str s => s
  | _ => ""

/-- int() of a token value as parse_type applies it to an NLIT payload. -/
def TokenValue.asInt : TokenValue → Int
  | .int n => n
  | _ => 0

/-- The parser's PRECEDENCE table. -/
def PRECEDENCE : TokenType → Option Nat
  | .OR_OR => some 1
  | .OR => some 2
  | .XOR => some 3
  | .AND_AND => some 4
  | .AND => some 5
  | .EQ => some 6
  | .NE => some 6
  | .LT => some 7
  | .GT => some 7
  | .LE => some 7
  | .GE => some 7
  | .PLUS => some 8
  | .MINUS => some 8
  | .STAR => some 9
  | .SLASH => some 9
  | .PERCENT => some 9
  | _ => none

/-- str() of a token value as parse_asm_block joins instruction fragments. -/
def pyStrTokenValue : TokenValue → String
  | .none => "None"
  | .str s => s
  | .int n => toString n
  | .float q => toString q
  | .bool b => if b then "True" else "False"

/-- Wrap an expression in deref_level Dereference nodes. -/
def wrapDeref : Nat → Node → Node
  | 0, e => e
  | n + 1, e => wrapDeref n (.dereference e)

/-- var_access.parts[0] as FunctionCall's callee; the parser always makes
the first part an identifier. -/
def headIdent : List AccessPart → String
  | .ident s :: _ => s
  | _ => ""

/-- ExternDecl.__init__: a missing return type becomes Type("void"). -/
def mkExternDecl (name : String) (is_variadic : Bool) (return_type : Option Ty)
    (parameters : List ExternParam) (is_var : Bool := false) : Node :=
  .externDecl name is_variadic (return_type.getD voidTy) parameters is_var

/-- Parser.parse_type. The star-counting while loop is the length of the
consecutive run of STAR tokens at the cursor. -/
def parse_type (st : PState) : Except String (Ty × PState) := do
  let (tok, st) ← Parser.expect st .IDENT
  let type_name := tok.value.asStr
  let starRun :=
    ((st.tokens.drop st.current_index).takeWhile (fun t => t.type_ = TokenType.STAR)).length
  let st := { st with current_index := st.current_index + starRun }
  if st.current.type_ = TokenType.LBRACKET then
    let (_, st) := st.eat
    if st.current.type_ = TokenType.NLIT then do
      let (tk, st) := st.eat
      let (_, st) ← Parser.expect st .RBRACKET
      .ok (⟨type_name, starRun, true, some tk.value.asInt⟩, st)
    else do
      let (_, st) ← Parser.expect st .RBRACKET
      .ok (⟨type_name, starRun, true, none⟩, st)
  else
    .ok (⟨type_name, starRun, false, none⟩, st)

def parse_dotted_loop : Nat → PState → List String →
    Except String (List String × PState)
  | 0, _, _ => .error "parser fuel exhausted"
  | fuel + 1, st, parts =>
    if st.current.type_ = TokenType.DOT then do
      let (_, st) := st.eat
      let (tok, st) ← Parser.expect st .IDENT
      parse_dotted_loop fuel st (parts ++ [tok.value.asStr])
    else .ok (parts, st)

/-- Parser.parse_dotted_identifier. -/
def parse_dotted_identifier (fuel : Nat) (st : PState) :
    Except String (List String × PState) := do
  let (tok, st) ← Parser.expect st .IDENT
  parse_dotted_loop fuel st [tok.value.asStr]

def parse_import_symbols : Nat → PState → List String →
    Except String (List String × PState)
  | 0, _, _ => .error "parser fuel exhausted"
  | fuel + 1, st, acc => do
    let (tok, st) ← Parser.expect st .IDENT
    let acc := acc ++ [tok.value.asStr]
    if st.current.type_ ≠ TokenType.COMMA then .ok (acc, st)
    else parse_import_symbols fuel (st.eat).2 acc

/-- Parser.parse_import. -/
def parse_import (fuel : Nat) (st : PState) : Except String (Node × PState) := do
  let (_, st) ← Parser.expect st .KEYWORD
  let (parts, st) ← parse_dotted_identifier fuel st
  let (imported_symbols, st) ←
    if st.current.type_ = TokenType.COLON then do
      let (syms, st) ← parse_import_symbols fuel (st.eat).2 []
      pure (some syms, st)
    else pure (none, st)
  let (_, st) ← Parser.expect st .SEMICOLON
  .ok (.importNode parts imported_symbols, st)

def parse_parameters_loop : Nat → PState → List Param →
    Except String (List Param × PState)
  | 0, _, _ => .error "parser fuel exhausted"
  | fuel + 1, st, acc => do
    let (ntok, st) ← Parser.expect st .IDENT
    let (_, st) ← Parser.expect st .COLON
    let (param_type, st) ← parse_type st
    let acc := acc ++ [⟨ntok.value.asStr, param_type⟩]
    if st.current.type_ ≠ TokenType.COMMA then .ok (acc, st)
    else parse_parameters_loop fuel (st.eat).2 acc

/-- Parser.parse_parameters. -/
def parse_parameters (fuel : Nat) (st : PState) :
    Except String (List Param × PState) := do
  let (parameters, st) ←
    if st.current.type_ ≠ TokenType.RPAREN then parse_parameters_loop fuel st []
    else pure ([], st)
  let (_, st) ← Parser.expect st .RPAREN
  .ok (parameters, st)

def parse_extern_params : Nat → PState → List Ty →
    Except String (List Ty × Bool × PState)
  | 0, _, _ => .error "parser fuel exhausted"
  | fuel + 1, st, acc =>
    if st.current.type_ = TokenType.DOTS then .ok (acc, true, (st.eat).2)
    else do
      let (t, st) ← parse_type st
      let acc := acc ++ [t]
      if st.current.type_ ≠ TokenType.COMMA then .ok (acc, false, st)
      else parse_extern_params fuel (st.eat).2 acc

/-- Parser.parse_extern. -/
def parse_extern_decl (fuel : Nat) (st : PState) :
    Except String (Node × PState) := do
  let (_, st) ← Parser.expect st .KEYWORD
  let (ntok, st) ← Parser.expect st .IDENT
  let (parameters, is_variadic, st) ←
    if st.current.type_ = TokenType.LPAREN then do
      let (_, st) := st.eat
      let (params, var, st) ←
        if st.current.type_ ≠ TokenType.RPAREN then parse_extern_params fuel st []
        else pure ([], false, st)
      let (_, st) ← Parser.expect st .RPAREN
      pure (params, var, st)
    else pure ([], false, st)
  let (return_type, st) ←
    if st.current.type_ = TokenType.ARROW then do
      let (_, st) := st.eat
      let (t, st) ← parse_type st
      pure (some t, st)
    else pure (none, st)
  let (_, st) ← Parser.expect st .SEMICOLON
  .ok (mkExternDecl ntok.value.asStr is_variadic return_type
    (parameters.map ExternParam.ty), st)

def parse_asm_loop : Nat → PState → List String → List TokenValue →
    Except String (List String × PState)
  | 0, _, _, _ => .error "parser fuel exhausted"
  | fuel + 1, st, instructions, current_line =>
    if st.current.type_ = TokenType.RBRACE then
      let line := (String.intercalate " " (current_line.map pyStrTokenValue)).trim
      .ok ((if line ≠ "" then instructions ++ [line] else instructions), st)
    else if st.current.type_ = TokenType.EOF then .error "Unexpected EOF in asm block"
    else
      let (tok, st) := st.eat
      if tok.value = TokenValue.str ";" then
        let line := (String.intercalate " " (current_line.map pyStrTokenValue)).trim
        parse_asm_loop fuel st
          (if line ≠ "" then instructions ++ [line] else instructions) []
      else
        parse_asm_loop fuel st instructions (current_line ++ [tok.value])

/-- Parser.parse_asm_block. -/
def parse_asm_block (fuel : Nat) (st : PState) :
    Except String (Node × PState) := do
  let (_, st) ← Parser.expect st .KEYWORD
  let (_, st) ← Parser.expect st .LBRACE
  let (instructions, st) ← parse_asm_loop fuel st [] []
  let (_, st) ← Parser.expect st .RBRACE
  .ok (.asmBlock instructions, st)

/-- The mutually recursive parse methods: one record per fuel level, so
the recursion is structural in the fuel and every application reduces. -/
structure ParseFns where
  va_loop : PState → List AccessPart → Except String (List AccessPart × PState)
  va_parts : PState → Except String (List AccessPart × PState)
  arguments_loop : PState → List Node → Except String (List Node × PState)
  arguments : PState → Except String (List Node × PState)
  array_elems : PState → List Node → Except String (List Node × PState)
  primary : PState → Except String (Node × PState)
  unary : PState → Except String (Node × PState)
  cast_loop : PState → Node → Except String (Node × PState)
  expression : PState → Nat → Except String (Node × PState)
  expression_loop : PState → Nat → Node → Except String (Node × PState)
  statement : PState → Except String (Node × PState)
  function_ : PState → Bool → Except String (Node × PState)
  function_body : PState → List Node → Except String (List Node × PState)
  variable_ : PState → Bool → Except String (Node × PState)
  top : PState → List Node → Except String (List Node × PState)

def parseFuelErr {α : Type} : Except String α := .error "parser fuel exhausted"

def mkParse : Nat → ParseFns
  | 0 =>
    ⟨fun _ _ => parseFuelErr, fun _ => parseFuelErr, fun _ _ => parseFuelErr,
     fun _ => parseFuelErr, fun _ _ => parseFuelErr, fun _ => parseFuelErr,
     fun _ => parseFuelErr, fun _ _ => parseFuelErr, fun _ _ => parseFuelErr,
     fun _ _ _ => parseFuelErr, fun _ => parseFuelErr, fun _ _ => parseFuelErr,
     fun _ _ => parseFuelErr, fun _ _ => parseFuelErr, fun _ _ => parseFuelErr⟩
  | fuel + 1 =>
    let P := mkParse fuel
    { va_loop := fun st parts =>
        if st.current.type_ = TokenType.DOT then do
          let (_, st) := st.eat
          let (tok, st) ← Parser.expect st .IDENT
          P.va_loop st (parts ++ [.ident tok.value.asStr])
        else if st.current.type_ = TokenType.LBRACKET then do
          let (_, st) := st.eat
          let (e, st) ← P.expression st 0
          let (_, st) ← Parser.expect st .RBRACKET
          P.va_loop st (parts ++ [.index e])
        else .ok (parts, st),
      va_parts := fun st => do
        let (tok, st) ← Parser.expect st .IDENT
        P.va_loop st [.ident tok.value.asStr],
      arguments_loop := fun st acc => do
        let (e, st) ← P.expression st 0
        let acc := acc ++ [e]
        if st.current.type_ ≠ TokenType.COMMA then .ok (acc, st)
        else P.arguments_loop (st.eat).2 acc,
      arguments := fun st => do
        let (args, st) ←
          if st.current.type_ ≠ TokenType.RPAREN then P.arguments_loop st []
          else pure ([], st)
        let (_, st) ← Parser.expect st .RPAREN
        .ok (args, st),
      array_elems := fun st acc => do
        let (e, st) ← P.expression st 0
        let acc := acc ++ [e]
        if st.current.type_ ≠ TokenType.COMMA then .ok (acc, st)
        else P.array_elems (st.eat).2 acc,
      primary := fun st =>
        let tok := st.current
        if tok.type_ = TokenType.NLIT ∨ tok.type_ = TokenType.FLIT then
          let (_, st) := st.eat
          match tok.value with
          | .int n => .ok (.numberLiteral (.int n), st)
          | .float q => .ok (.numberLiteral (.float q), st)
          | _ => .ok (.numberLiteral (.int 0), st)
        else if tok.type_ = TokenType.SLIT then
          let (_, st) := st.eat
          .ok (.stringLiteral tok.value.asStr, st)
        else if tok.type_ = TokenType.BLIT then
          let (_, st) := st.eat
          match tok.value with
          | .bool b => .ok (.booleanLiteral b, st)
          | _ => .ok (.booleanLiteral false, st)
        else if tok.type_ = TokenType.KEYWORD ∧ tok.value = TokenValue.str "null" then
          let (_, st) := st.eat
          .ok (.pointerLiteralAddr 0, st)
        else if tok.type_ = TokenType.LBRACKET then do
          let (_, st) := st.eat
          let (elements, st) ←
            if st.current.type_ ≠ TokenType.RBRACKET then P.array_elems st []
            else pure ([], st)
          let (_, st) ← Parser.expect st .RBRACKET
          .ok (.arrayLiteral elements, st)
        else if tok.type_ = TokenType.STAR then do
          let (_, st) := st.eat
          let extra :=
            ((st.tokens.drop st.current_index).takeWhile
              (fun t => t.type_ = TokenType.STAR)).length
          let deref_level := 1 + extra
          let st := { st with current_index := st.current_index + extra }
          let (parts, st) ← P.va_parts st
          if st.current.type_ = TokenType.LPAREN then
            .error (parserErrorMsg "Attempt to deref function call"
              st.current.line st.current.column)
          else if st.current.type_ = TokenType.ASSIGN then do
            let (_, st) := st.eat
            let (value, st) ← P.expression st 0
            let node := wrapDeref deref_level (.variableAccess parts)
            match parts with
            | [.ident _] => .ok (.assignment (.node node) value, st)
            | _ => .error (parserErrorMsg
                "Assignment to indexed variables not supported yet"
                st.current.line st.current.column)
          else
            .ok (wrapDeref deref_level (.variableAccess parts), st)
        else if tok.type_ = TokenType.IDENT then do
          let (parts, st) ← P.va_parts st
          if st.current.type_ = TokenType.LPAREN then do
            let (_, st) := st.eat
            let (args, st) ← P.arguments st
            .ok (.functionCall (headIdent parts) args, st)
          else if st.current.type_ = TokenType.ASSIGN then do
            let (_, st) := st.eat
            let (value, st) ← P.expression st 0
            match parts with
            | [.ident s] => .ok (.assignment (.str s) value, st)
            | _ => .error (parserErrorMsg
                "Assignment to indexed variables not supported yet"
                st.current.line st.current.column)
          else .ok (.variableAccess parts, st)
        else if tok.type_ = TokenType.LPAREN then do
          let (_, st) := st.eat
          let (e, st) ← P.expression st 0
          let (_, st) ← Parser.expect st .RPAREN
          .ok (e, st)
        else
          .error (parserErrorMsg ("Unexpected token: " ++ tokenTypeStr tok.type_)
            tok.line tok.column),
      unary := fun st =>
        if st.current.type_ = TokenType.MINUS then do
          let (_, st) := st.eat
          let (operand, st) ← P.unary st
          match operand with
          | .numberLiteral v => .ok (.numberLiteral v.neg, st)
          | _ => .ok (.binaryOp (.numberLiteral (.int 0)) .MINUS operand, st)
        else if st.current.type_ = TokenType.AND then do
          let (_, st) := st.eat
          let (e, st) ← P.unary st
          .ok (.pointerLiteralExpr e, st)
        else do
          let (e, st) ← P.primary st
          P.cast_loop st e,
      cast_loop := fun st e =>
        if st.current.type_ = TokenType.KEYWORD ∧
            st.current.value = TokenValue.str "as" then do
          let (_, st) := st.eat
          let (t, st) ← parse_type st
          P.cast_loop st (.castNode e t)
        else .ok (e, st),
      expression := fun st precedence => do
        let (left, st) ← P.unary st
        P.expression_loop st precedence left,
      expression_loop := fun st precedence left =>
        let tok := st.current
        match PRECEDENCE tok.type_ with
        | none => .ok (left, st)
        | some token_prec =>
          if token_prec < precedence then .ok (left, st)
          else do
            let (_, st) := st.eat
            let (right, st) ← P.expression st (token_prec + 1)
            P.expression_loop st precedence (.binaryOp left tok.type_ right),
      statement := fun st =>
        if st.current.type_ = TokenType.KEYWORD then
          let kw := st.current.value.asStr
          if kw = "import" then parse_import fuel st
          else if kw = "return" then do
            let (_, st) := st.eat
            if st.current.type_ ≠ TokenType.SEMICOLON then do
              let (e, st) ← P.expression st 0
              let (_, st) ← Parser.expect st .SEMICOLON
              .ok (.returnNode (some e), st)
            else do
              let (_, st) ← Parser.expect st .SEMICOLON
              .ok (.returnNode none, st)
          else if kw = "pub" then
            let (_, st) := st.eat
            if st.current.type_ = TokenType.KEYWORD ∧
                st.current.value = TokenValue.str "fn" then
              P.function_ st true
            else
              P.variable_ st true
          else if kw = "fn" then P.function_ st false
          else if kw = "var" then P.variable_ st false
          else if kw = "extern" then parse_extern_decl fuel st
          else if kw = "asm" then parse_asm_block fuel st
          else do
            let (e, st) ← P.expression st 0
            let (_, st) ← Parser.expect st .SEMICOLON
            .ok (e, st)
        else do
          let (e, st) ← P.expression st 0
          let (_, st) ← Parser.expect st .SEMICOLON
          .ok (e, st),
      function_ := fun st is_public => do
        let (_, st) ← Parser.expect st .KEYWORD
        let (ntok, st) ← Parser.expect st .IDENT
        let (_, st) ← Parser.expect st .LPAREN
        let (parameters, st) ← parse_parameters fuel st
        let (return_type, st) ←
          if st.current.type_ = TokenType.ARROW then do
            let (_, st) := st.eat
            let (t, st) ← parse_type st
            pure (some t, st)
          else pure (none, st)
        let (_, st) ← Parser.expect st .LBRACE
        let (body, st) ← P.function_body st []
        let (_, st) ← Parser.expect st .RBRACE
        .ok (.functionDef ntok.value.asStr parameters return_type body is_public, st),
      function_body := fun st acc =>
        if st.current.type_ ≠ TokenType.RBRACE then do
          let (s, st) ← P.statement st
          P.function_body st (acc ++ [s])
        else .ok (acc, st),
      variable_ := fun st is_public => do
        let (_, st) ← Parser.expect st .KEYWORD
        let (ntok, st) ← Parser.expect st .IDENT
        let (_, st) ← Parser.expect st .COLON
        let (type_, st) ← parse_type st
        let (value, st) ←
          if st.current.type_ = TokenType.ASSIGN then do
            let (_, st) := st.eat
            let (e, st) ← P.expression st 0
            pure (some e, st)
          else pure (none, st)
        let (_, st) ← Parser.expect st .SEMICOLON
        .ok (.variableDef ntok.value.asStr type_ value is_public, st),
      top := fun st acc =>
        if st.current.type_ ≠ TokenType.EOF then do
          let (s, st) ← P.statement st
          P.top st (acc ++ [s])
        else .ok (acc, st) }

/-- Parser.parse_statement. -/
def parse_statement (fuel : Nat) (st : PState) : Except String (Node × PState) :=
  (mkParse fuel).statement st

/-- Parser.parse_expression. -/
def parse_expression (fuel : Nat) (st : PState) (precedence : Nat) :
    Except String (Node × PState) :=
  (mkParse fuel).expression st precedence

/-- Parser.parse_variable. -/
def parse_variable (fuel : Nat) (st : PState) (is_public : Bool) :
    Except String (Node × PState) :=
  (mkParse fuel).variable_ st is_public

/-- Parser.parse's top-level statement loop. -/
def parse_top (fuel : Nat) (st : PState) : Except String (List Node × PState) :=
  (mkParse fuel).top st []

/-- Parser.parse for a token list (as Parser.__init__ plus parse). -/
def Parser.parse (tokens : List Token) : Except String (List Node) :=
  (parse_top ((tokens.length + 2) * 16) ⟨tokens, 0⟩).map (fun p => p.1)

/-- The front half of the pipeline: Lexer then Parser, as Parser(src) does. -/
def parseProgram (src : String) : Except String (List Node) := do
  let tokens ← Lexer.scan_tokens src
  Parser.parse tokens

/-! Type checker (src/core/typechecker.py). TypeChecker's mutable state is
the Env record; the check methods thread it. A raised TypeError is an
error value carrying the exception's message; the AttributeError values
mark places where the Python code would crash outside its own TypeError
class (all unreachable from parser-produced programs). -/

structure Env where
  symbols : List (String × Ty)
  functions : List (String × Node)
  ptr_bits : Nat
  current_function : Option String

/-- TypeChecker.__init__: struct.calcsize("P") * 8 is 64 on the x86-64
host this compiler targets. -/
def env0 : Env := ⟨[], [], 64, none⟩

/-- TypeError.__init__'s message: the node context is omitted when the
node argument is None (None is falsy). -/
def typeErrorMsg (msg : String) (nodeName : Option String) : String :=
  "Typechecker Error: " ++ msg ++
    (match nodeName with
     | some n => " at node " ++ n
     | none => "")

def optTyStr : Option Ty → String
  | some t => tyRepr t
  | none => "None"

/-- Python == between two check results: Type.__eq__ compares the four
fields, returns False against a non-Type, and None == None is True. -/
def pyTyEqOpt : Option Ty → Option Ty → Bool
  | some a, some b => a = b
  | none, none => true
  | _, _ => false

/-- Using a possibly-None check result where the code calls a Type method
on it: None would raise AttributeError (a crash, not a TypeError). -/
def asTy : Option Ty → String → Except String Ty
  | some t, _ => .ok t
  | none, attr =>
    .error ("AttributeError: 'NoneType' object has no attribute '" ++ attr ++ "'")

/-- t.is_compatible_with(other) where other may be None: the method body
reads other.name on every path that follows the failed == test. -/
def compatOpt (t : Ty) : Option Ty → Except String Bool
  | some other => .ok (t.is_compatible_with other)
  | none => .error "AttributeError: 'NoneType' object has no attribute 'name'"

/-- str() of an Assignment target for error messages; a Dereference target
prints its class (abbreviated from the node's __str__). -/
def assignNameStr : AssignName → String
  | .str s => s
  | .node n => nodeClassName n ++ "(...)"

/-- func_def.parameters (FunctionDef holds Parameter objects; ExternDecl
holds whatever its builder supplied). -/
def getParamsAttr : Node → List ExternParam
  | .functionDef _ params _ _ _ => params.map .param
  | .externDecl _ _ _ params _ => params
  | _ => []

/-- getattr(func_def, 'is_variadic', False): only ExternDecl has the
attribute. -/
def getIsVariadicAttr : Node → Bool
  | .externDecl _ v _ _ _ => v
  | _ => false

/-- func_def.return_type: an Option on FunctionDef, always present on
ExternDecl; other classes lack the attribute. -/
def returnTypeAttr : Node → Except String (Option Ty)
  | .functionDef _ _ rt _ _ => .ok rt
  | .externDecl _ _ rt _ _ => .ok (some rt)
  | _ => .error "AttributeError: no attribute 'return_type'"

def pyNumInRange (lo hi : Int) (v : PyNum) : Bool :=
  match v with
  | .int n => lo ≤ n && n ≤ hi
  | .float q => (lo : Rat) ≤ q && q ≤ (hi : Rat)

/-- The f32 bound 3.4028235e38 as an exact rational. -/
def f32max : Rat := (34028235 : Rat) * 10 ^ 31

def pyNumInF32Range (v : PyNum) : Bool :=
  match v with
  | .int n => -f32max ≤ (n : Rat) && (n : Rat) ≤ f32max
  | .float q => -f32max ≤ q && q ≤ f32max

/-- ord() of a char-literal payload; a multi-character escape payload would
raise Python's builtin TypeError (uncaught). -/
def pyOrd (s : String) : Except String Int :=
  match s.data with
  | [c] => .ok (c.toNat : Int)
  | _ => .error "TypeError: ord() expected a character"

def isDigitsStr (s : String) : Bool :=
  s.length > 0 && s.data.all Char.isDigit

/-- str.startswith, over the character lists (reduces definitionally,
unlike String.startsWith). -/
def pyStrStartsWith (s pre : String) : Bool :=
  pre.data.isPrefixOf s.data

def strToNat (s : String) : Nat :=
  s.data.foldl (fun a c => a * 10 + (c.toNat - 48)) 0

/-- TypeChecker._check_integer_range. callerClass is the class name of the
node argument (the enclosing VariableDef or Assignment), used in the
raised TypeError's context. isinf/isnan are identically false on the
exact rationals standing for Python floats. -/
def check_integer_range (ptr_bits : Nat) (type_ : Ty) (value_node : Node)
    (callerClass : String) : Except String Unit :=
  if type_.is_float then
    if nodeClassName value_node ≠ "NumberLiteral" then .ok ()
    else
      match value_node with
      | .numberLiteral val =>
        if type_.name = "f32" then
          if ¬ pyNumInF32Range val then
            .error (typeErrorMsg
              ("Float literal " ++ pyNumStr val ++ " out of range for type " ++
                type_.name) (some callerClass))
          else .ok ()
        else .ok ()
      | _ => .ok ()
  else if ¬ (type_.is_integer &&
      (nodeClassName value_node = "NumberLiteral" ||
       nodeClassName value_node = "CharLiteral")) then .ok ()
  else do
    let val : PyNum ←
      match value_node with
      | .charLiteral s => do
        let n ← pyOrd s
        pure (PyNum.int n)
      | .numberLiteral v => pure v
      | _ => pure (PyNum.int 0)
    let range : Option (Int × Int) :=
      if type_.name = "usize" then some (0, 2 ^ ptr_bits - 1)
      else if type_.name = "isize" then
        some (-((2 : Int) ^ (ptr_bits - 1)), (2 : Int) ^ (ptr_bits - 1) - 1)
      else if pyStrStartsWith type_.name "u" && isDigitsStr (type_.name.drop 1) then
        let bits := strToNat (type_.name.drop 1)
        some (0, 2 ^ bits - 1)
      else if pyStrStartsWith type_.name "i" && isDigitsStr (type_.name.drop 1) then
        let bits := strToNat (type_.name.drop 1)
        some (-((2 : Int) ^ (bits - 1)), (2 : Int) ^ (bits - 1) - 1)
      else if type_.name = "int" then
        some (-((2 : Int) ^ (ptr_bits - 1)), (2 : Int) ^ (ptr_bits - 1) - 1)
      else if type_.name = "uint" then some (0, 2 ^ ptr_bits - 1)
      else if type_.name = "char" then some (0, 255)
      else none
    match range with
    | none => .ok ()
    | some (lo, hi) =>
      if ¬ pyNumInRange lo hi val then
        .error (typeErrorMsg
          ("Integer literal " ++ pyNumStr val ++ " out of range for type " ++
            type_.name ++ " (allowed: " ++ toString lo ++ " to " ++
            toString hi ++ ")") (some callerClass))
      else .ok ()

/-- The parameter loop of check_FunctionDef. -/
def addParams : List Param → Env → Except String Env
  | [], env => .ok env
  | p :: ps, env =>
    if dictContains env.symbols p.name then
      .error (typeErrorMsg ("Parameter '" ++ p.name ++ "' already defined in scope")
        (some "FunctionDef"))
    else addParams ps { env with symbols := dictSet env.symbols p.name p.type_ }

/-- The element compatibility loop of check_ArrayLiteral. -/
def arrayCompatLoop (first : Ty) : List (Option Ty) → Except String Unit
  | [] => .ok ()
  | et :: rest => do
    let okc ← compatOpt first et
    if ¬ okc then
      .error (typeErrorMsg ("Array literal element type mismatch: " ++
        tyRepr first ++ " vs " ++ optTyStr et) (some "ArrayLiteral"))
    else arrayCompatLoop first rest

/-- The mutually recursive check methods, one record per fuel level so
every application reduces; the fuel bounds the AST nesting depth while
the statement and element loops walk their lists structurally. -/
structure CheckFns where
  node : Env → Node → Except String (Option Ty × Env)
  nodes : Env → List Node → Except String (Option Ty × Env)
  elems : Env → List Node → Except String (List (Option Ty) × Env)
  argsZip : Env → List ExternParam → List Node → String → Except String Env

def checkFuelErr {α : Type} : Except String α := .error "typechecker fuel exhausted"

def mkCheck : Nat → CheckFns
  | 0 =>
    ⟨fun _ _ => checkFuelErr, fun _ _ => checkFuelErr, fun _ _ => checkFuelErr,
     fun _ _ _ _ => checkFuelErr⟩
  | fuel + 1 =>
    let P := mkCheck fuel
    { node := fun env node =>
        match node with
        | .numberLiteral v =>
          .ok (some ⟨(match v with | .float _ => "f64" | .int _ => "int"),
            0, false, none⟩, env)
        | .stringLiteral _ => .ok (some ⟨"string", 0, false, none⟩, env)
        | .charLiteral _ => .ok (some ⟨"char", 0, false, none⟩, env)
        | .booleanLiteral _ => .ok (some ⟨"bool", 0, false, none⟩, env)
        | .variableAccess parts =>
          (match parts with
          | .ident name :: rest =>
            if ¬ dictContains env.symbols name then
              .error (typeErrorMsg ("Variable '" ++ name ++ "' not defined")
                (some "VariableAccess"))
            else
              let var_type := (dictLookup env.symbols name).getD voidTy
              (match rest with
              | [] => .ok (some var_type, env)
              | .ident m :: _ =>
                if m = "len" then
                  if var_type.can_have_len_property then
                    .ok (some ⟨"usize", 0, false, none⟩, env)
                  else
                    .error (typeErrorMsg ("Type '" ++ tyRepr var_type ++
                      "' has no member 'len'") (some "VariableAccess"))
                else
                  .error (typeErrorMsg ("Unknown member '" ++ m ++ "' on type '" ++
                    tyRepr var_type ++ "'") (some "VariableAccess"))
              | .index _ :: _ =>
                .error (typeErrorMsg ("Unknown member '<expr>' on type '" ++
                  tyRepr var_type ++ "'") (some "VariableAccess")))
          | _ =>
            .error (typeErrorMsg "Variable '<expr>' not defined"
              (some "VariableAccess")))
        | .assignment nameA value => do
          let (var_type, env) ←
            (match nameA with
            | .str s =>
              if ¬ dictContains env.symbols s then
                .error (typeErrorMsg ("Variable '" ++ s ++ "' not defined")
                  (some "Assignment"))
              else .ok (dictLookup env.symbols s, env)
            | .node n => P.node env n)
          let (val_type, env) ← P.node env value
          let vt ← asTy var_type "is_compatible_with"
          let okc ← compatOpt vt val_type
          if ¬ okc then
            .error (typeErrorMsg ("Type mismatch in assignment to '" ++
              assignNameStr nameA ++ "': expected " ++ tyRepr vt ++ ", got " ++
              optTyStr val_type) (some "Assignment"))
          else do
            check_integer_range env.ptr_bits vt value "Assignment"
            .ok (var_type, env)
        | .variableDef name type_ value _ =>
          if dictContains env.symbols name then
            .error (typeErrorMsg ("Variable '" ++ name ++ "' already defined")
              (some "VariableDef"))
          else do
            let (val_type, env) ←
              (match value with
              | some v => P.node env v
              | none =>
                -- self.check(None): dispatch finds no check_NoneType and raises
                -- TypeError with node=None, so the message carries no context.
                .error (typeErrorMsg "No type checker implemented for NoneType" none))
            let okc ← compatOpt type_ val_type
            if ¬ okc then
              .error (typeErrorMsg ("Type mismatch in variable definition '" ++
                name ++ "': declared " ++ tyRepr type_ ++ ", got " ++
                optTyStr val_type) (some "VariableDef"))
            else do
              (match value with
              | some v => check_integer_range env.ptr_bits type_ v "VariableDef"
              | none => pure ())
              .ok (some type_, { env with symbols := dictSet env.symbols name type_ })
        | .binaryOp left op right => do
          let (left_type, env) ← P.node env left
          let (right_type, env) ← P.node env right
          if ¬ pyTyEqOpt left_type right_type then
            .error (typeErrorMsg ("Type mismatch in binary operation: " ++
              optTyStr left_type ++ " " ++ tokenTypeStr op ++ " " ++
              optTyStr right_type) (some "BinaryOp"))
          else do
            let lt ← asTy left_type "is_integer"
            if ¬ (lt.is_integer || lt.is_string || lt.is_array) then
              .error (typeErrorMsg ("Unsupported operand type(s) for " ++
                tokenTypeStr op ++ ": '" ++ tyRepr lt ++ "'") (some "BinaryOp"))
            else .ok (some lt, env)
        | .functionCall name arguments =>
          (match dictLookup env.functions name with
          | none =>
            .error (typeErrorMsg ("Function '" ++ name ++ "' not defined")
              (some "FunctionCall"))
          | some func_def =>
            let params := getParamsAttr func_def
            if getIsVariadicAttr func_def then
              if arguments.length < params.length then
                .error (typeErrorMsg ("Function '" ++ name ++
                  "' expects at least " ++ toString params.length ++
                  " arguments, got " ++ toString arguments.length)
                  (some "FunctionCall"))
              else do
                let env ← P.argsZip env params (arguments.take params.length) name
                let rt ← returnTypeAttr func_def
                .ok (rt, env)
            else
              if params.length ≠ arguments.length then
                .error (typeErrorMsg ("Function '" ++ name ++ "' expects " ++
                  toString params.length ++ " arguments, got " ++
                  toString arguments.length) (some "FunctionCall"))
              else do
                let env ← P.argsZip env params arguments name
                let rt ← returnTypeAttr func_def
                .ok (rt, env))
        | .returnNode exprO =>
          (match exprO with
          | none => .ok (some voidTy, env)
          | some e => do
            let (return_type, env) ← P.node env e
            (match env.current_function with
            | none => .ok (return_type, env)
            | some fname =>
              (match dictLookup env.functions fname with
              | none => .error ("KeyError: '" ++ fname ++ "'")
              | some fd => do
                let declaredO ← returnTypeAttr fd
                let declared ← asTy declaredO "is_compatible_with"
                let okc ← compatOpt declared return_type
                if ¬ okc then
                  .error (typeErrorMsg ("Function '" ++ fname ++ "' returns " ++
                    optTyStr return_type ++ ", but declared " ++ tyRepr declared)
                    (some "ReturnNode"))
                else .ok (return_type, env))))
        | .externDecl name is_variadic rt params var =>
          if var then
            if dictContains env.symbols name then
              .error (typeErrorMsg ("Extern variable '" ++ name ++
                "' already defined") (some "ExternDecl"))
            else
              .ok (some rt, { env with symbols := dictSet env.symbols name rt })
          else
            if dictContains env.functions name then
              .error (typeErrorMsg ("Function '" ++ name ++
                "' already defined or declared") (some "ExternDecl"))
            else
              let fs := dictSet env.functions name
                (.externDecl name is_variadic rt params var)
              .ok (some rt, { env with functions := fs })
        | .functionDef name params rt body pub =>
          if dictContains env.functions name then
            .error (typeErrorMsg ("Function '" ++ name ++ "' already defined")
              (some "FunctionDef"))
          else do
            let fs := dictSet env.functions name (.functionDef name params rt body pub)
            let env := { env with functions := fs, current_function := some name }
            let old_symbols := env.symbols
            let env ← addParams params env
            let (_, env) ← P.nodes env body
            .ok (rt, { env with symbols := old_symbols, current_function := none })
        | .arrayLiteral elements =>
          if elements.isEmpty then
            .error (typeErrorMsg
              "Empty array literals are not supported or need explicit type annotation"
              (some "ArrayLiteral"))
          else do
            let (element_types, env) ← P.elems env elements
            let first ← asTy (element_types.headD none) "is_compatible_with"
            arrayCompatLoop first element_types.tail
            .ok (some ⟨first.name, 0, true, some (elements.length : Int)⟩, env)
        | .importNode _ _ => .ok (some voidTy, env)
        | .asmBlock _ => .ok (some voidTy, env)
        | .pointerLiteralAddr _ => .ok (some ⟨"void", 1, false, none⟩, env)
        | .pointerLiteralExpr e => do
          let (addr_type, env) ← P.node env e
          let t ← asTy addr_type "name"
          .ok (some ⟨t.name, t.pointer_level + 1, false, none⟩, env)
        | .dereference e => do
          let (var_typeO, env) ← P.node env e
          let var_type ← asTy var_typeO "pointer_level"
          if var_type.pointer_level = 0 then
            .error (typeErrorMsg ("Cannot dereference non-pointer type " ++
              tyRepr var_type) (some "Dereference"))
          else if var_type.pointer_level = 1 ∧ var_type.name = "void" then
            .error (typeErrorMsg "Cannot dereference pointer to void"
              (some "Dereference"))
          else
            .ok (some ⟨var_type.name, var_type.pointer_level - 1, false, none⟩, env)
        | .castNode e target => do
          let (_, env) ← P.node env e
          .ok (some target, env),
      nodes := fun env l =>
        l.foldlM (fun acc n => P.node acc.2 n) ((some voidTy : Option Ty), env),
      elems := fun env l =>
        l.foldlM
          (fun (acc : List (Option Ty) × Env) n => do
            let (t, env) ← P.node acc.2 n
            pure (acc.1 ++ [t], env)) ([], env),
      argsZip := fun env params args fname =>
        (params.zip args).foldlM
          (fun env pa => do
            let (arg_type, env) ← P.node env pa.2
            (match pa.1 with
            | .ty _ =>
              .error "AttributeError: 'Type' object has no attribute 'type_'"
            | .param pp => do
              let okc ← compatOpt pp.type_ arg_type
              if ¬ okc then
                .error (typeErrorMsg ("Function '" ++ fname ++ "' argument '" ++
                  pp.name ++ "' expects " ++ tyRepr pp.type_ ++ ", got " ++
                  optTyStr arg_type) (some "FunctionCall"))
              else pure env)) env }

/-- TypeChecker.check on a single node. -/
def checkNode (fuel : Nat) (env : Env) (node : Node) :
    Except String (Option Ty × Env) :=
  (mkCheck fuel).node env node

/-- TypeChecker.check on a list of nodes (the driver's entry point). -/
def checkNodes (fuel : Nat) (env : Env) (l : List Node) :
    Except String (Option Ty × Env) :=
  (mkCheck fuel).nodes env l

/-! Code generator (src/core/codegen.py). CodeGen's attributes are the CG
record; CodegenException (which prints "Codegen Error: ..." and exits)
is an error value with that message. -/

structure CG where
  output : List String
  label_count : Nat
  string_literals : List (String × String)
  string_label_count : Nat
  current_function : Option Node
  var_offsets : List (String × Int)
  stack_size : Nat
  global_vars : List Node
  externs : List String
  global_symbols : List String

def cg0 : CG := ⟨[], 0, [], 0, none, [], 0, [], [], []⟩

def codegenErr (msg : String) : String := "Codegen Error: " ++ msg

def spacesN : Nat → String
  | n => String.mk (List.replicate n ' ')

def CG.emit (cg : CG) (instruction : String) (indent : Nat := 4) : CG :=
  { cg with output := cg.output ++ [spacesN indent ++ instruction] }

def CG.emit_section (cg : CG) (section_name : String) : CG :=
  { cg with output := cg.output ++ ["section ." ++ section_name] }

def CG.emit_label (cg : CG) (label : String) : CG :=
  { cg with output := cg.output ++ [label ++ ":"] }

/-- CodeGen.unique_label. -/
def CG.unique_label (cg : CG) (base : String := "L") : String × CG :=
  let cg := { cg with label_count := cg.label_count + 1 }
  (base ++ toString cg.label_count, cg)

/-- CodeGen.get_string_label: the deduplicating string pool. -/
def CG.get_string_label (cg : CG) (s : String) : String × CG :=
  if dictContains cg.string_literals s then
    ((dictLookup cg.string_literals s).getD "", cg)
  else
    let cnt := cg.string_label_count + 1
    let label := "LC" ++ toString cnt
    (label,
      { cg with string_label_count := cnt,
                string_literals := cg.string_literals ++ [(s, label)] })

/-- CodeGen.prologue. -/
def CG.prologue (cg : CG) : CG :=
  let cg := cg.emit "push rbp"
  let cg := cg.emit "mov rbp, rsp"
  if cg.stack_size > 0 then
    let aligned_size := ((cg.stack_size + 15) / 16) * 16
    if aligned_size ≠ 0 then
      let cg := cg.emit ("sub rsp, " ++ toString aligned_size)
      { cg with stack_size := aligned_size }
    else cg
  else cg

/-- CodeGen.epilogue. -/
def CG.epilogue (cg : CG) : CG :=
  ((cg.emit "mov rsp, rbp").emit "pop rbp").emit "ret"

/-- hasattr(type_, "array_size"): the Type dataclass fields are name,
pointer_level, is_array and size, so the attribute never exists and the
"Arrays are not supported" branches guarded by it are dead. -/
def hasAttrArraySize (_ : Ty) : Bool := false

/-- hasattr(node.name, "index") in _codegen_assignment: the target is a
string or a Dereference node, neither of which has an index attribute. -/
def hasAttrIndexAssign (_ : AssignName) : Bool := false

/-- hasattr(node, "index") in _codegen_expression's VariableAccess branch:
VariableAccess objects never get an index attribute. -/
def hasAttrIndexAccess (_ : Node) : Bool := false

/-- Python == between a BooleanLiteral's value and the string "true" in
_codegen_expression: the value is a bool (the lexer stores True/False),
and a bool never equals a str, so the comparison is False for both
literals. -/
def pyEqBoolStr (_ : Bool) (_ : String) : Bool := false

/-- The op_map of _codegen_binary_op, keyed as in the source (NOT_EQ, not
the NE token the lexer emits for the != symbol). -/
def op_map : TokenType → Option (List String)
  | .PLUS => some ["add rax, rbx"]
  | .MINUS => some ["sub rax, rbx"]
  | .STAR => some ["imul rax, rbx"]
  | .SLASH => some ["cqo", "idiv rbx"]
  | .EQ => some ["cmp rax, rbx", "sete al", "movzx rax, al"]
  | .NOT_EQ => some ["cmp rax, rbx", "setne al", "movzx rax, al"]
  | .LT => some ["cmp rax, rbx", "setl al", "movzx rax, al"]
  | .LE => some ["cmp rax, rbx", "setle al", "movzx rax, al"]
  | .GT => some ["cmp rax, rbx", "setg al", "movzx rax, al"]
  | .GE => some ["cmp rax, rbx", "setge al", "movzx rax, al"]
  | .PERCENT => some ["cqo", "idiv rbx", "mov rax, rdx"]
  | _ => none

def arg_regs : List String := ["rdi", "rsi", "rdx", "rcx", "r8", "r9"]

/-- The local-slot pre-pass of _codegen_function: 8 bytes per VariableDef
in the body, offsets -8, -16, ... (the array_size guard is dead, see
hasAttrArraySize). -/
def collectOffsets : List Node → Nat → List (String × Int) →
    Nat × List (String × Int)
  | [], offset, acc => (offset, acc)
  | .variableDef name t _ _ :: rest, offset, acc =>
    if hasAttrArraySize t then (offset, acc)
    else
      let offset := offset + 8
      collectOffsets rest offset (dictSet acc name (-(offset : Int)))
  | _ :: rest, offset, acc => collectOffsets rest offset acc

/-- The parameter-store loop of _codegen_function. The loop advances the
pre-pass local `offset`, which prologue's alignment of stack_size does not
touch, so it is threaded separately from the CG state. -/
def codegenParams : CG → List Param → Nat → Nat → Except String CG
  | cg, [], _, _ => .ok cg
  | cg, p :: ps, i, offset =>
    if i < 6 then
      let (off, offset, cg) :=
        match dictLookup cg.var_offsets p.name with
        | some off => (off, offset, cg)
        | none =>
          let offset := offset + 8
          let off := -(offset : Int)
          let cg := { cg with var_offsets := dictSet cg.var_offsets p.name off,
                              stack_size := offset }
          let aligned_stack := ((cg.stack_size + 15) / 16) * 16
          if aligned_stack ≠ cg.stack_size then
            let diff := aligned_stack - cg.stack_size
            let cg := cg.emit ("sub rsp, " ++ toString diff)
            (off, offset, { cg with stack_size := aligned_stack })
          else (off, offset, cg)
      let cg := cg.emit ("mov [rbp" ++ toString off ++ "], " ++
        (arg_regs.getD i ""))
      codegenParams cg ps (i + 1) offset
    else .error (codegenErr "More than 6 parameters not supported")

/-- The mutually recursive _codegen methods, one record per fuel level so
every application reduces; the fuel bounds the AST nesting depth while
statement and argument loops walk their lists structurally. -/
structure CGFns where
  dispatch : CG → Node → Except String CG
  function_ : CG → Node → Except String CG
  body : CG → List Node → Except String CG
  variable_def : CG → Node → Except String CG
  return_ : CG → Option Node → Except String CG
  assignment : CG → AssignName → Node → Except String CG
  function_call : CG → String → List Node → Except String CG
  push_args : CG → List Node → Except String CG
  reg_args : CG → List (Nat × Node) → Except String CG
  expression : CG → Node → String → Except String CG
  binary_op : CG → Node → TokenType → Node → String → Except String CG

def cgFuelErr {α : Type} : Except String α := .error "codegen fuel exhausted"

def mkCG : Nat → CGFns
  | 0 =>
    ⟨fun _ _ => cgFuelErr, fun _ _ => cgFuelErr, fun _ _ => cgFuelErr,
     fun _ _ => cgFuelErr, fun _ _ => cgFuelErr, fun _ _ _ => cgFuelErr,
     fun _ _ _ => cgFuelErr, fun _ _ => cgFuelErr, fun _ _ => cgFuelErr,
     fun _ _ _ => cgFuelErr, fun _ _ _ _ _ => cgFuelErr⟩
  | fuel + 1 =>
    let P := mkCG fuel
    { dispatch := fun cg node =>
        match node with
        | .externDecl _ _ _ _ _ => .ok cg
        | .functionDef _ _ _ _ _ => P.function_ cg node
        | .variableDef _ _ _ _ => P.variable_def cg node
        | .returnNode e => P.return_ cg e
        | .functionCall name args => P.function_call cg name args
        | .assignment nameA value => P.assignment cg nameA value
        | .binaryOp l op r => P.binary_op cg l op r "rax"
        | .numberLiteral v => P.expression cg (.numberLiteral v) "rax"
        | .stringLiteral s => P.expression cg (.stringLiteral s) "rax"
        | .booleanLiteral b => P.expression cg (.booleanLiteral b) "rax"
        | .variableAccess parts => P.expression cg (.variableAccess parts) "rax"
        | other =>
          .error (codegenErr ("Codegen for " ++ nodeClassName other ++
            " not implemented")),
      function_ := fun cg node =>
        match node with
        | .functionDef name params _ body _ => do
          let cg := { cg with current_function := some node, var_offsets := [],
                              stack_size := 0 }
          let cg := cg.emit_label name
          let (offset, offs) := collectOffsets body 0 []
          let cg := { cg with var_offsets := offs, stack_size := offset }
          let cg := cg.prologue
          let cg ← codegenParams cg params 0 offset
          let cg ← P.body cg body
          let cg :=
            if ¬ body.any (fun s => nodeClassName s = "ReturnNode") then cg.epilogue
            else cg
          .ok { cg with current_function := none, var_offsets := [], stack_size := 0 }
        | _ => .error (codegenErr "not a FunctionDef"),
      body := fun cg l => l.foldlM (fun cg n => P.dispatch cg n) cg,
      variable_def := fun cg node =>
        match node with
        | .variableDef name t value _ =>
          if cg.current_function.isSome then
            if hasAttrArraySize t then
              .error (codegenErr "Arrays are not supported")
            else
              match value with
              | some v => do
                let cg ← P.expression cg v "rax"
                match dictLookup cg.var_offsets name with
                | some offset =>
                  .ok (cg.emit ("mov [rbp" ++ toString offset ++ "], rax"))
                | none => .error ("KeyError: '" ++ name ++ "'")
              | none => .ok cg
          else .ok cg
        | _ => .error (codegenErr "not a VariableDef"),
      return_ := fun cg expression =>
        match expression with
        | some e => do
          let cg ← P.expression cg e "rax"
          .ok cg.epilogue
        | none => .ok ((cg.emit "mov rax, 0").epilogue),
      assignment := fun cg nameA value =>
        if hasAttrIndexAssign nameA then
          .error (codegenErr "Array indexing is not supported")
        else do
          let cg ← P.expression cg value "rax"
          match nameA with
          | .str name =>
            (match dictLookup cg.var_offsets name with
            | some offset =>
              .ok (cg.emit ("mov [rbp" ++ toString offset ++ "], rax"))
            | none => .error ("KeyError: '" ++ name ++ "'"))
          | .node _ => .error "KeyError: unhashable Dereference target",
      function_call := fun cg name arguments => do
        let argc := arguments.length
        let stack_args := argc - 6
        let adjustment := if stack_args % 2 ≠ 0 then 8 else 0
        let cg :=
          if adjustment ≠ 0 then cg.emit ("sub rsp, " ++ toString adjustment)
          else cg
        let cg ← P.push_args cg (arguments.drop 6).reverse
        let cg ← P.reg_args cg (arguments.take 6).enum
        let cg := cg.emit "xor rax, rax"
        let cg := cg.emit ("call " ++ name)
        let cg :=
          if stack_args > 0 then cg.emit ("add rsp, " ++ toString (stack_args * 8))
          else cg
        let cg :=
          if adjustment ≠ 0 then cg.emit ("add rsp, " ++ toString adjustment)
          else cg
        .ok cg,
      push_args := fun cg l =>
        l.foldlM
          (fun cg a => do
            let cg ← P.expression cg a "rax"
            pure (cg.emit "push rax")) cg,
      reg_args := fun cg l =>
        l.foldlM
          (fun cg ia => do
            let cg ← P.expression cg ia.2 "rax"
            pure (cg.emit ("mov " ++ arg_regs.getD ia.1 "" ++ ", rax"))) cg,
      expression := fun cg node target_reg =>
        match node with
        | .numberLiteral v =>
          .ok (cg.emit ("mov " ++ target_reg ++ ", " ++ pyNumStr v))
        | .stringLiteral s =>
          let (label, cg) := cg.get_string_label s
          .ok (cg.emit ("lea " ++ target_reg ++ ", [rel " ++ label ++ "]"))
        | .booleanLiteral b =>
          .ok (cg.emit ("mov " ++ target_reg ++ ", " ++
            (if pyEqBoolStr b "true" then "1" else "0")))
        | .variableAccess parts =>
          if hasAttrIndexAccess (.variableAccess parts) then
            .error (codegenErr "Array indexing is not supported")
          else
            (match parts with
            | [.ident var_name] =>
              if cg.current_function.isSome &&
                  dictContains cg.var_offsets var_name then
                match dictLookup cg.var_offsets var_name with
                | some offset =>
                  .ok (cg.emit ("mov " ++ target_reg ++ ", [rbp" ++
                    toString offset ++ "]"))
                | none => .error ("KeyError: '" ++ var_name ++ "'")
              else
                .ok (cg.emit ("mov " ++ target_reg ++ ", [" ++ var_name ++ "]"))
            | [.index _] =>
              -- a lone index part is never built by the parser; the source
              -- would format the node into the global-access emission
              .ok (cg.emit ("mov " ++ target_reg ++ ", [<expr>]"))
            | [_, member] =>
              (match member with
              | .ident m =>
                if m = "len" then
                  .error (codegenErr "`.len` property is not supported")
                else .error (codegenErr "Struct member access not implemented")
              | .index _ =>
                .error (codegenErr "Struct member access not implemented"))
            | _ => .error (codegenErr "Unsupported VariableAccess parts length"))
        | .binaryOp l op r => P.binary_op cg l op r target_reg
        | .functionCall name args => do
          let cg ← P.function_call cg name args
          if target_reg ≠ "rax" then
            .ok (cg.emit ("mov " ++ target_reg ++ ", rax"))
          else .ok cg
        | other =>
          .error (codegenErr ("Unsupported expression node type: " ++
            nodeClassName other)),
      binary_op := fun cg left op right target_reg => do
        let cg ← P.expression cg left "rax"
        let cg := cg.emit "push rax"
        let cg ← P.expression cg right "rax"
        let cg := cg.emit "mov rbx, rax"
        let cg := cg.emit "pop rax"
        match op_map op with
        | none =>
          .error (codegenErr ("Unsupported binary operator " ++ tokenTypeStr op))
        | some asm_instrs =>
          let cg := asm_instrs.foldl (fun cg instr => cg.emit instr) cg
          if target_reg ≠ "rax" then
            .ok (cg.emit ("mov " ++ target_reg ++ ", rax"))
          else .ok cg }

/-- CodeGen._codegen_dispatch. -/
def codegen_dispatch (fuel : Nat) (cg : CG) (node : Node) : Except String CG :=
  (mkCG fuel).dispatch cg node

/-- CodeGen._codegen_expression. -/
def codegen_expression (fuel : Nat) (cg : CG) (node : Node) (target_reg : String) :
    Except String CG :=
  (mkCG fuel).expression cg node target_reg

/-- CodeGen._codegen_binary_op. -/
def codegen_binary_op (fuel : Nat) (cg : CG) (left : Node) (op : TokenType)
    (right : Node) (target_reg : String) : Except String CG :=
  (mkCG fuel).binary_op cg left op right target_reg

/-- The escape decoding step of the .rodata emission,
s.encode('utf-8').decode('unicode_escape'), for the single-character
backslash escapes the language's string literals use; an unrecognized
escape keeps the backslash and the character, as unicode_escape does. -/
def decodeUnicodeEscape : List Char → List Char
  | [] => []
  | '\\' :: c :: rest =>
    (if c = 'n' then [Char.ofNat 10]
     else if c = 't' then [Char.ofNat 9]
     else if c = 'r' then [Char.ofNat 13]
     else if c = '\\' then [Char.ofNat 92]
     else if c = '\'' then [Char.ofNat 39]
     else if c = '"' then [Char.ofNat 34]
     else if c = 'a' then [Char.ofNat 7]
     else if c = 'b' then [Char.ofNat 8]
     else if c = 'f' then [Char.ofNat 12]
     else if c = 'v' then [Char.ofNat 11]
     else if c = '0' then [Char.ofNat 0]
     else ['\\', c]) ++ decodeUnicodeEscape rest
  | c :: rest => c :: decodeUnicodeEscape rest

/-- The .encode('latin1') step: a decoded character above U+00FF raises
UnicodeEncodeError, which generate converts into a CodegenException. -/
def encodeLatin1 (s : String) : List Char → Except String (List Nat)
  | [] => .ok []
  | c :: rest =>
    if c.toNat ≤ 255 then do
      let bs ← encodeLatin1 s rest
      .ok (c.toNat :: bs)
    else .error (codegenErr ("Invalid character in string literal: " ++ s))

/-- The bytes of one string-literal pool entry. -/
def interpretStringBytes (s : String) : Except String (List Nat) :=
  encodeLatin1 s (decodeUnicodeEscape s.data)

/-- One .rodata line: label, db, the comma-joined bytes and the trailing 0
(emitted through emit, so with the standard four-space indent). -/
def rodataLine (s label : String) : Except String String := do
  let bs ← interpretStringBytes s
  .ok (label ++ ": db " ++ String.intercalate ", " (bs.map toString) ++ ", 0")

/-- The .rodata loop of generate over the pool's entries in insertion
order. -/
def rodataEmit (cg : CG) : List (String × String) → Except String CG
  | [] => .ok cg
  | (s, label) :: rest => do
    let line ← rodataLine s label
    rodataEmit (cg.emit line) rest

/-- The classification loop at the top of generate (current_function is
None throughout it, as generate is called on a fresh CodeGen). -/
def classifyTop (cg : CG) : List Node → CG
  | [] => cg
  | node :: rest =>
    let cg :=
      match node with
      | .variableDef name _ _ _ =>
        if cg.current_function.isNone then
          { cg with global_vars := cg.global_vars ++ [node],
                    global_symbols := cg.global_symbols ++ [name] }
        else cg
      | .externDecl name _ _ _ _ => { cg with externs := cg.externs ++ [name] }
      | .functionDef name _ _ _ _ =>
        { cg with global_symbols := cg.global_symbols ++ [name] }
      | _ => cg
    classifyTop cg rest

/-- The .data loop of generate over the initialized globals. -/
def emitDataGlobals (cg : CG) : List Node → CG
  | [] => cg
  | gvar :: rest =>
    let cg :=
      match gvar with
      | .variableDef name _ (some (.numberLiteral v)) _ =>
        cg.emit (name ++ ": dq " ++ pyNumStr v)
      | .variableDef name _ (some (.stringLiteral s)) _ =>
        let (str_label, cg) := cg.get_string_label s
        cg.emit (name ++ ": dq " ++ str_label)
      | .variableDef name _ (some _) _ => cg.emit (name ++ ": dq 0")
      | .variableDef _ _ none _ => cg
      | _ => cg
    emitDataGlobals cg rest

/-- generate's second pass: dispatch FunctionDefs and other statements,
skipping externs and the top-level VariableDefs already emitted. -/
def codegenTopNodes : Nat → CG → List Node → Except String CG
  | _, cg, [] => .ok cg
  | 0, _, _ :: _ => .error "codegen fuel exhausted"
  | fuel + 1, cg, node :: rest => do
    let cg ←
      match node with
      | .functionDef _ _ _ _ _ => codegen_dispatch fuel cg node
      | .externDecl _ _ _ _ _ => pure cg
      | .variableDef _ _ _ _ =>
        if cg.current_function.isNone then pure cg
        else codegen_dispatch fuel cg node
      | _ => codegen_dispatch fuel cg node
    codegenTopNodes fuel cg rest

/-- Whether a global VariableDef has no initializer (the .bss filter). -/
def isUninitVar : Node → Bool
  | .variableDef _ _ none _ => true
  | _ => false

/-- CodeGen.generate, returning the emitted lines (the source joins them
with newlines). -/
def generate (fuel : Nat) (ast_nodes : List Node) : Except String (List String) := do
  let cg := classifyTop cg0 ast_nodes
  let cg := cg.emit "default rel"
  let cg := cg.global_symbols.foldl (fun cg s => cg.emit ("global " ++ s)) cg
  let cg := cg.externs.foldl (fun cg e => cg.emit ("extern " ++ e)) cg
  let cg :=
    if ¬ cg.global_vars.isEmpty then
      let cg := cg.emit_section "data"
      let cg := emitDataGlobals cg cg.global_vars
      let uninit_globals := cg.global_vars.filter isUninitVar
      if ¬ uninit_globals.isEmpty then
        let cg := cg.emit_section "bss"
        uninit_globals.foldl
          (fun cg g =>
            match g with
            | .variableDef name _ _ _ => cg.emit (name ++ ": resq 1")
            | _ => cg) cg
      else cg
    else cg
  let cg := cg.emit_section "text"
  let cg ← codegenTopNodes fuel cg ast_nodes
  let cg ←
    if ¬ cg.string_literals.isEmpty then do
      let cg := cg.emit_section "rodata"
      rodataEmit cg cg.string_literals
    else pure cg
  .ok cg.output

/-! Importer (src/core/importer.py). The filesystem is abstracted by a
loader from a resolved module path to that module's parsed top-level AST
(resolve_module_path plus open plus Parser.parse); a path the loader does
not know raises the module-not-found error. -/

/-- os.path.join(*parts): the dotted parts joined by the path separator. -/
def joinParts : List String → String
  | [] => ""
  | [p] => p
  | p :: rest => p ++ "/" ++ joinParts rest

/-- Importer.resolve_module_path: os.path.join of the search root (always
passed as "lib/" by the driver) with the joined parts, plus the .sw
suffix. -/
def resolve_module_path (base_path : String) (parts : List String) : String :=
  base_path ++ joinParts parts ++ ".sw"

/-- getattr(node, 'name', None) for this AST (Assignment's name attribute
is a string only for plain targets; a Dereference target is not a usable
dict key for the graphs built here and no such node appears at a module's
top level). -/
def getNameAttr : Node → Option String
  | .functionCall name _ => some name
  | .functionDef name _ _ _ _ => some name
  | .variableDef name _ _ _ => some name
  | .externDecl name _ _ _ _ => some name
  | .assignment (.str name) _ => some name
  | _ => none

/-- hasattr(n, 'children'): no AST class of parser.py defines a children
attribute. -/
def hasAttrChildren (_ : Node) : Bool := false

/-- hasattr(n, 'node_type'): no AST class of parser.py defines a node_type
attribute. -/
def hasAttrNodeType (_ : Node) : Bool := false

/-- Importer.find_dependencies_in_node. visit(n) recurses only under the
children attribute and records or walks bodies only when n has both a
name and a node_type attribute; neither attribute exists on any node of
this parser's AST, so visit returns without recording anything and the
dependency set is empty for every node. -/
def find_dependencies_in_node (n : Node) : List String :=
  if hasAttrChildren n then []
  else if (getNameAttr n).isSome && hasAttrNodeType n then []
  else []

/-- Importer.build_dependency_graph. -/
def build_dependency_graph (ast_nodes : List Node) : List (String × List String) :=
  ast_nodes.foldl
    (fun g n =>
      match getNameAttr n with
      | some nm => dictSet g nm (find_dependencies_in_node n)
      | none => g) []

/-- Importer.collect_dependencies: the worklist pops from the end of the
stack; the result set is kept as a first-insertion-ordered list (only its
membership is observable through the splice that follows). -/
def collect_dependencies : Nat → List (String × List String) → List String →
    List String → List String
  | 0, _, _, result => result
  | fuel + 1, dep_graph, stack, result =>
    match stack.getLast? with
    | none => result
    | some sym =>
      let stack := stack.dropLast
      if result.contains sym then collect_dependencies fuel dep_graph stack result
      else
        let result := result ++ [sym]
        match dictLookup dep_graph sym with
        | some deps =>
          collect_dependencies fuel dep_graph
            (stack ++ deps.filter (fun d => ¬ result.contains d)) result
        | none => collect_dependencies fuel dep_graph stack result

/-- An upper bound on collect_dependencies' iterations: each pop consumes
one pushed element, and pushes are the initial symbols plus at most each
graph edge once. -/
def collectFuel (symbols : List String) (dep_graph : List (String × List String)) : Nat :=
  symbols.length + dep_graph.foldl (fun a p => a + p.2.length) 0 + 1

/-- First-occurrence deduplication, as iterating a Python set built from a
list is modelled here (only membership and multiplicity are observable). -/
def dedupFirst (seen : List String) : List String → List String
  | [] => []
  | s :: rest =>
    if seen.contains s then dedupFirst seen rest
    else s :: dedupFirst (seen ++ [s]) rest

/-- Importer.make_extern_node. A FunctionDef's parameters carry no
is_variadic attribute, so the any() is False; the return type defaults to
void; a VariableDef becomes an ExternDecl with the default is_var=False
(the source does not pass is_var). -/
def make_extern_node : Node → Option Node
  | .functionDef name params rt _ _ =>
    some (.externDecl name (params.any (fun _ => false))
      (rt.getD voidTy) (params.map ExternParam.param) false)
  | .variableDef name t _ _ =>
    some (.externDecl name false t [] false)
  | _ => none

structure ImpState where
  visited : List String
  imported_modules : List String

/-- The stub-splicing loop over needed_symbols. -/
def spliceSymbols (module_ast : List Node) : List String → List Node
  | [] => []
  | sym :: rest =>
    match module_ast.find? (fun item => getNameAttr item = some sym) with
    | none => spliceSymbols module_ast rest
    | some original_node =>
      match make_extern_node original_node with
      | some e => e :: spliceSymbols module_ast rest
      | none => spliceSymbols module_ast rest

/-- Importer.resolve_imports. The fuel bounds the statements processed
plus the module-nesting depth; every recursive call decreases it, so the
recursion is structural and applications reduce. -/
def resolve_imports (loader : String → Option (List Node)) (base_path : String) :
    Nat → ImpState → List Node → Except String (List Node × ImpState)
  | _, st, [] => .ok ([], st)
  | 0, _, _ :: _ => .error "importer fuel exhausted"
  | fuel + 1, st, node :: rest =>
    match node with
    | .importNode parts imported_symbols =>
      let module_path := resolve_module_path base_path parts
      if st.visited.contains module_path then
        resolve_imports loader base_path fuel st rest
      else
        let st := { st with visited := st.visited ++ [module_path],
                            imported_modules := st.imported_modules ++ [module_path] }
        match loader module_path with
        | none => .error ("FileNotFoundError: Module file not found: " ++ module_path)
        | some module_src => do
          let (module_ast, st) ← resolve_imports loader base_path fuel st module_src
          let dep_graph := build_dependency_graph module_ast
          let needed_symbols :=
            match imported_symbols with
            | some syms =>
              collect_dependencies (collectFuel syms dep_graph) dep_graph syms []
            | none => dedupFirst [] (module_ast.filterMap getNameAttr)
          let spliced := spliceSymbols module_ast needed_symbols
          let (rest_resolved, st) ← resolve_imports loader base_path fuel st rest
          .ok (spliced ++ rest_resolved, st)
    | _ => do
      let (rest_resolved, st) ← resolve_imports loader base_path fuel st rest
      .ok (node :: rest_resolved, st)

/-- A loader with no modules (programs without imports). -/
def emptyLoader : String → Option (List Node) := fun _ => none

/-- The compile pipeline of sweet.py's compile_to_object up to the
assembly text: lex, parse, resolve imports against the lib/ search root,
type-check, generate. -/
def pipeline (loader : String → Option (List Node)) (src : String) :
    Except String (List String) := do
  let tokens ← Lexer.scan_tokens src
  let ast ← Parser.parse tokens
  let (ast, _) ← resolve_imports loader "lib/" 16 ⟨[], []⟩ ast
  let _ ← checkNodes 128 env0 ast
  generate 128 ast

/-! Observations used by the statements below. -/

def isError {α : Type} : Except String α → Bool
  | .error _ => true
  | .ok _ => false

def intTy : Ty := ⟨"int", 0, false, none⟩

def u8Ty : Ty := ⟨"u8", 0, false, none⟩

def i8Ty : Ty := ⟨"i8", 0, false, none⟩

/-- Whether a node is an ImportNode (isinstance(node, ImportNode)). -/
def asImportNode : Node → Option (List String × Option (List String))
  | .importNode parts syms => some (parts, syms)
  | _ => none

/-- How many ExternDecl entries with the given name a node list holds. -/
def countExternNamed (name : String) (l : List Node) : Nat :=
  (l.filter (fun n =>
    match n with
    | .externDecl m _ _ _ _ => m = name
    | _ => false)).length

/-- Whether a node is a FunctionDef or a VariableDef (the classes
make_extern_node turns into stubs). -/
def isDefNode : Node → Bool
  | .functionDef _ _ _ _ _ => true
  | .variableDef _ _ _ _ => true
  | _ => false

/-- The stub for one requested symbol: the first module node with that
name, passed through make_extern_node. -/
def spliceOne (module_ast : List Node) (sym : String) : Option Node :=
  (module_ast.find? (fun item => getNameAttr item = some sym)).bind make_extern_node

/-- A search root holding exactly one module. -/
def singleLoader (m : String) (defs : List Node) : String → Option (List Node) :=
  fun p => if p = "lib/" ++ m ++ ".sw" then some defs else none

/-- Successive get_string_label calls for a list of literal contents. -/
def processStrings (cg : CG) (ss : List String) : CG :=
  ss.foldl (fun cg s => (cg.get_string_label s).2) cg

/-- The pool an in-order pass assigns: entry i of the list gets label
LC(k + i + 1). -/
def labelAssignFrom (k : Nat) : List String → List (String × String)
  | [] => []
  | s :: rest => (s, "LC" ++ toString (k + 1)) :: labelAssignFrom (k + 1) rest

/-- Whether one character list occurs inside another. -/
def listContainsSub (sub : List Char) : List Char → Bool
  | [] => sub.isPrefixOf []
  | c :: rest => sub.isPrefixOf (c :: rest) || listContainsSub sub rest

/-- Whether an emitted line is a string-pool db line. -/
def isDbLine (l : String) : Bool := listContainsSub ": db ".data l.data

/-- The S1 program's expected emission. -/
def s1lines : List String :=
  ["    default rel", "    global main", "section .text", "main:",
   "    push rbp", "    mov rbp, rsp", "    mov rax, 42",
   "    mov rsp, rbp", "    pop rbp", "    ret"]

/-- A module whose requested symbol foo calls its sibling helper. -/
def c6module : List Node :=
  [.functionDef "foo" [] (some intTy)
    [.returnNode (some (.functionCall "helper" []))] false,
   .functionDef "helper" [] (some intTy)
    [.returnNode (some (.numberLiteral (.int 1)))] false]

def c6loader : String → Option (List Node) := singleLoader "m" c6module

/-- Module a imports b and defines fa; module b defines fb. -/
def c9modA : List Node :=
  [.importNode ["b"] none,
   .functionDef "fa" [] (some intTy)
    [.returnNode (some (.numberLiteral (.int 0)))] false]

def c9modB : List Node :=
  [.functionDef "fb" [] (some intTy)
    [.returnNode (some (.numberLiteral (.int 0)))] false]

def c9loader : String → Option (List Node) := fun p =>
  if p = "lib/a.sw" then some c9modA
  else if p = "lib/b.sw" then some c9modB
  else none

/-- A program whose codegen pools the string "hi" twice. -/
def hiProgram : List Node :=
  [.functionDef "main" [] (some intTy)
    [.functionCall "puts" [.stringLiteral "hi"],
     .functionCall "puts" [.stringLiteral "hi"],
     .returnNode (some (.numberLiteral (.int 0)))] false]

/-- The lines generate emits for hiProgram. -/
def hiLines : List String :=
  ["    default rel", "    global main", "section .text", "main:",
   "    push rbp", "    mov rbp, rsp",
   "    lea rax, [rel LC1]", "    mov rdi, rax", "    xor rax, rax", "    call puts",
   "    lea rax, [rel LC1]", "    mov rdi, rax", "    xor rax, rax", "    call puts",
   "    mov rax, 0", "    mov rsp, rbp", "    pop rbp", "    ret",
   "section .rodata", "    LC1: db 104, 105, 0"]

/-! Theorems. -/

/-- C1: of the thirteen words the spec reserves, the lexer's keyword set
holds only ten: let, if, else, while, return, fn, const, var, import and
the extern keyword classify as KEYWORD tokens and true/false as boolean
literals, but pub, asm and as — claimed to be keywords — classify as
plain identifiers (and a whole-source scan of "pub" confirms it at the
token level), so the claim fails on the code while the parser still
branches on pub/asm/as KEYWORD tokens that the lexer never produces. -/
theorem C1_keyword_classification :
    (∀ kw ∈ ["let", "if", "else", "while", "return", "fn", "const", "var",
      "import", "extern"],
      classify_identifier kw = (TokenType.KEYWORD, TokenValue.str kw)) ∧
    classify_identifier "true" = (TokenType.BLIT, TokenValue.bool true) ∧
    classify_identifier "false" = (TokenType.BLIT, TokenValue.bool false) ∧
    classify_identifier "pub" = (TokenType.IDENT, TokenValue.str "pub") ∧
    classify_identifier "asm" = (TokenType.IDENT, TokenValue.str "asm") ∧
    classify_identifier "as" = (TokenType.IDENT, TokenValue.str "as") ∧
    Lexer.scan_tokens "pub" =
      .ok [⟨TokenType.IDENT, TokenValue.str "pub", 1, 4⟩,
           ⟨TokenType.EOF, TokenValue.none, 1, 4⟩] := by
  refine ⟨?_, rfl, rfl, rfl, rfl, rfl, rfl⟩
  decide

/-- C2: the lexer tokenizes != as TokenType.NE, but _codegen_binary_op's
op_map is keyed on TokenType.NOT_EQ, so a well-typed != comparison does
not produce the claimed cmp/setne/movzx sequence: code generation fails
with "Unsupported binary operator TokenType.NE" (the full pipeline on
fn main() -> int { return 1 != 2; } passes lexing, parsing and type
checking and then dies in codegen). -/
theorem C2_ne_comparison_codegen_fails :
    dictLookup symbols "!=" = some TokenType.NE ∧
    op_map TokenType.NE = none ∧
    op_map TokenType.NOT_EQ = some ["cmp rax, rbx", "setne al", "movzx rax, al"] ∧
    pipeline emptyLoader "fn main() -> int { return 1 != 2; }" =
      .error "Codegen Error: Unsupported binary operator TokenType.NE" :=
  ⟨rfl, rfl, rfl, rfl⟩

/-- C3: the full pipeline on fn main() -> int { return 42; } succeeds and
emits exactly the ten lines below, which contain global main, the .text
section header, the main: label, and end with the consecutive sequence
push rbp; mov rbp, rsp; mov rax, 42; mov rsp, rbp; pop rbp; ret. -/
theorem C3_s1_pipeline :
    pipeline emptyLoader "fn main() -> int { return 42; }" = .ok s1lines ∧
    "    global main" ∈ s1lines ∧
    "section .text" ∈ s1lines ∧
    "main:" ∈ s1lines ∧
    s1lines = ["    default rel", "    global main", "section .text", "main:"] ++
      ["    push rbp", "    mov rbp, rsp", "    mov rax, 42",
       "    mov rsp, rbp", "    pop rbp", "    ret"] := by
  refine ⟨rfl, ?_, ?_, ?_, rfl⟩ <;> decide

/-- C4: for every boolean literal and any generator state and target
register, _codegen_expression emits mov reg, 0 — for false and for true
alike — because the literal's value is a Python bool and the source
compares it against the string "true", which is never equal; the claimed
mov rax, 1 for true is never emitted. -/
theorem C4_boolean_literal_emits_zero :
    ∀ (fuel : Nat) (cg : CG) (target_reg : String) (b : Bool),
      codegen_expression (fuel + 1) cg (.booleanLiteral b) target_reg =
        .ok (cg.emit ("mov " ++ target_reg ++ ", " ++ "0")) := by
  intro fuel cg target_reg b
  rfl

/-- C5: the checker rejects var x: u8 = 256; with an integer-range
TypeError, accepts var x: u8 = 255; leaving the symbol table mapping x to
u8, and rejects var x: i8 = -129; with a TypeError (the compatibility
test fires before the range test there: i8 is signed and the literal's
type int is not uint, so the very definition is a type mismatch — still
a rejection, as claimed). Each source snippet is parsed by the embedded
parser into the checked VariableDef. -/
theorem C5_integer_range_gating :
    (parseProgram "var x: u8 = 256;" =
      .ok [.variableDef "x" u8Ty (some (.numberLiteral (.int 256))) false]) ∧
    (checkNodes 8 env0
        [.variableDef "x" u8Ty (some (.numberLiteral (.int 256))) false] =
      .error "Typechecker Error: Integer literal 256 out of range for type u8 (allowed: 0 to 255) at node VariableDef") ∧
    (parseProgram "var x: u8 = 255;" =
      .ok [.variableDef "x" u8Ty (some (.numberLiteral (.int 255))) false]) ∧
    (checkNodes 8 env0
        [.variableDef "x" u8Ty (some (.numberLiteral (.int 255))) false] =
      .ok (some u8Ty, { env0 with symbols := [("x", u8Ty)] })) ∧
    (parseProgram "var x: i8 = -129;" =
      .ok [.variableDef "x" i8Ty (some (.numberLiteral (.int (-129)))) false]) ∧
    (checkNodes 8 env0
        [.variableDef "x" i8Ty (some (.numberLiteral (.int (-129)))) false] =
      .error "Typechecker Error: Type mismatch in variable definition 'x': declared i8, got int at node VariableDef") :=
  ⟨rfl, rfl, rfl, rfl, rfl, rfl⟩

/-- C6: the claim's transitive call closure never happens. The dependency
visitor tests the attributes children and node_type, which no AST class
of this parser defines, so every dependency set is empty and the splice
covers exactly the requested symbols: importing foo from a module whose
foo calls its sibling helper splices a stub for foo only — no stub for
helper is spliced, contradicting the claim's own example. -/
theorem C6_pruning_splices_requested_only :
    (∀ n : Node, find_dependencies_in_node n = []) ∧
    resolve_imports c6loader "lib/" 16 ⟨[], []⟩ [.importNode ["m"] (some ["foo"])] =
      .ok ([.externDecl "foo" false intTy [] false], ⟨["lib/m.sw"], ["lib/m.sw"]⟩) ∧
    countExternNamed "helper" [Node.externDecl "foo" false intTy [] false] = 0 := by
  refine ⟨?_, rfl, rfl⟩
  intro n
  simp [find_dependencies_in_node, hasAttrChildren, hasAttrNodeType]

/-- C7: check_BinaryOp accepts exactly when the two operand types are
equal as Type records (all four fields — mere compatibility is not
consulted here) and the common type is an integer type, string, or an
array; it then types the operation as that common type, and it raises a
TypeError in every other case. -/
theorem C7_binary_op_exact_type_equality
    (fuel : Nat) (env env1 env2 : Env) (e1 e2 : Node) (op : TokenType) (lt rt : Ty)
    (h1 : checkNode fuel env e1 = .ok (some lt, env1))
    (h2 : checkNode fuel env1 e2 = .ok (some rt, env2)) :
    (lt = rt ∧ (lt.is_integer || lt.is_string || lt.is_array) = true →
      checkNode (fuel + 1) env (.binaryOp e1 op e2) = .ok (some lt, env2)) ∧
    (¬ (lt = rt ∧ (lt.is_integer || lt.is_string || lt.is_array) = true) →
      isError (checkNode (fuel + 1) env (.binaryOp e1 op e2)) = true) := by
  unfold checkNode at h1 h2 ⊢
  constructor
  · rintro ⟨hEq, hKind⟩
    subst hEq
    simp [mkCheck, h1, h2, bind, Except.bind, pyTyEqOpt, asTy, hKind]
    intro hi hs
    simpa [hi, hs] using hKind
  · intro hNot
    by_cases hEq : lt = rt
    · subst hEq
      have hKind : (lt.is_integer || lt.is_string || lt.is_array) = false := by
        rcases h : (lt.is_integer || lt.is_string || lt.is_array) with _ | _
        · rfl
        · exact absurd ⟨rfl, h⟩ hNot
      simp only [Bool.or_eq_false_iff] at hKind
      simp [mkCheck, h1, h2, bind, Except.bind, pyTyEqOpt, asTy, isError,
        hKind.1.1, hKind.1.2, hKind.2]
    · simp [mkCheck, h1, h2, bind, Except.bind, pyTyEqOpt, hEq, isError]

/-- Witness for C7 at a concrete input: 1 + 2 with both operands of type
int, an integer type, so the binary operation types as int. -/
theorem C7_binary_op_exact_type_equality_witness :
    checkNode 2 env0 (.binaryOp (.numberLiteral (.int 1)) TokenType.PLUS
      (.numberLiteral (.int 2))) = .ok (some intTy, env0) :=
  (C7_binary_op_exact_type_equality 1 env0 env0 env0 (.numberLiteral (.int 1))
    (.numberLiteral (.int 2)) TokenType.PLUS intTy intTy rfl rfl).1 ⟨rfl, rfl⟩


theorem dictContains_labelAssign (s : String) : ∀ (k : Nat) (l : List String),
    dictContains (labelAssignFrom k l) s = l.contains s := by
  intro k l
  induction l generalizing k with
  | nil => rfl
  | cons a t ih =>
    simp [labelAssignFrom, dictContains, List.contains_cons] at *
    simp [← ih (k + 1), dictContains]
    rw [show (decide (a = s)) = (decide (s = a)) from decide_eq_decide.mpr eq_comm]

theorem labelAssignFrom_append : ∀ (l : List String) (k : Nat) (s : String),
    labelAssignFrom k (l ++ [s]) =
      labelAssignFrom k l ++ [(s, "LC" ++ toString (k + l.length + 1))] := by
  intro l
  induction l with
  | nil => intro k s; simp [labelAssignFrom]
  | cons a t ih =>
    intro k s
    simp [labelAssignFrom, ih (k + 1) s]
    congr 2
    omega

theorem dictLookup_append_new {α : Type} (d : List (String × α)) (s : String) (v : α)
    (h : dictContains d s = false) : dictLookup (d ++ [(s, v)]) s = some v := by
  unfold dictLookup
  rw [List.find?_append]
  have hn : d.find? (fun p => p.1 = s) = none := by
    rw [List.find?_eq_none]
    intro x hx
    simp only [dictContains, List.any_eq_false] at h
    exact h x hx
  simp [hn]

theorem get_string_label_stable (cg : CG) (s : String) :
    ((cg.get_string_label s).2).get_string_label s =
      ((cg.get_string_label s).1, (cg.get_string_label s).2) := by
  unfold CG.get_string_label
  by_cases h : dictContains cg.string_literals s
  · simp [h]
  · have hc2 : dictContains (cg.string_literals ++
        [(s, "LC" ++ toString (cg.string_label_count + 1))]) s = true := by
      simp [dictContains, List.any_append]
    have h' : dictContains cg.string_literals s = false := by simpa using h
    simp [h', hc2, dictLookup_append_new _ _ _ h']

theorem processStrings_inv : ∀ (ss : List String) (cg : CG) (l : List String),
    cg.string_literals = labelAssignFrom 0 l →
    cg.string_label_count = l.length →
    (processStrings cg ss).string_literals =
      labelAssignFrom 0 (l ++ dedupFirst l ss) ∧
    (processStrings cg ss).string_label_count = (l ++ dedupFirst l ss).length := by
  intro ss
  induction ss with
  | nil =>
    intro cg l h1 h2
    simp [processStrings, dedupFirst, h1, h2]
  | cons s t ih =>
    intro cg l h1 h2
    by_cases hm : l.contains s
    · have hc : dictContains cg.string_literals s = true := by
        rw [h1, dictContains_labelAssign]; exact hm
      have hstep : processStrings cg (s :: t) = processStrings cg t := by
        simp [processStrings, CG.get_string_label, hc]
      rw [hstep]
      have hm' : s ∈ l := by simpa using hm
      have := ih cg l h1 h2
      simpa [dedupFirst, hm'] using this
    · have hc : dictContains cg.string_literals s = false := by
        rw [h1, dictContains_labelAssign]
        exact Bool.eq_false_iff.mpr (by simpa using hm)
      have hstep : processStrings cg (s :: t) =
          processStrings ((cg.get_string_label s).2) t := by
        simp [processStrings]
      have hc' : dictContains (labelAssignFrom 0 l) s = false := by
        rw [← h1]; exact hc
      have hlits : ((cg.get_string_label s).2).string_literals =
          labelAssignFrom 0 (l ++ [s]) := by
        simp [CG.get_string_label, hc', h1, h2, labelAssignFrom_append]
      have hcnt : ((cg.get_string_label s).2).string_label_count =
          (l ++ [s]).length := by
        simp [CG.get_string_label, hc', h1, h2]
      rw [hstep]
      have := ih ((cg.get_string_label s).2) (l ++ [s]) hlits hcnt
      have hm' : ¬ s ∈ l := by simpa using hm
      have hd : dedupFirst l (s :: t) = s :: dedupFirst (l ++ [s]) t := by
        simp [dedupFirst, hm']
      rw [hd]
      simpa [List.append_assoc] using this

/-- C8: the string pool and its labels. Repeating a content leaves the
pool untouched and returns the same label; after any sequence of
get_string_label calls from a fresh generator the pool maps exactly the
distinct contents, in first-use order, to LC1, LC2, ... consecutively
(and the counter equals their number), so the .rodata loop, which walks
the pool, emits one db line per distinct content — as the concrete
program using "hi" twice shows: its emission has exactly one db line. -/
theorem C8_string_pool_dedup_and_labels :
    (∀ (cg : CG) (s : String),
      ((cg.get_string_label s).2).get_string_label s =
        ((cg.get_string_label s).1, (cg.get_string_label s).2)) ∧
    (∀ ss : List String,
      (processStrings cg0 ss).string_literals =
        labelAssignFrom 0 (dedupFirst [] ss) ∧
      (processStrings cg0 ss).string_label_count = (dedupFirst [] ss).length) ∧
    generate 64 hiProgram = .ok hiLines ∧
    hiLines.filter isDbLine = ["    LC1: db 104, 105, 0"] := by
  refine ⟨get_string_label_stable, ?_, rfl, rfl⟩
  intro ss
  simpa using processStrings_inv ss cg0 [] rfl rfl


theorem isError_bind {α β : Type} (x : Except String α) (g : α → Except String β)
    (h : isError x = true) : isError (x >>= g) = true := by
  cases x <;> simp_all [isError, bind, Except.bind]

theorem checkNode_bare_vardef_isError :
    ∀ (fuel : Nat) (env : Env) (name : String) (t : Ty) (pub : Bool),
      isError (checkNode fuel env (.variableDef name t none pub)) = true := by
  intro fuel env name t pub
  cases fuel with
  | zero => rfl
  | succ fuel =>
    unfold checkNode
    by_cases h : dictContains env.symbols name <;>
      simp [mkCheck, h, isError, bind, Except.bind]

theorem checkNodesFold_env_only {fuel : Nat} :
    ∀ (l : List Node) (_ : l ≠ []) (x y : Option Ty) (env : Env),
      List.foldlM (fun acc n => (mkCheck fuel).node acc.2 n) (x, env) l =
      List.foldlM (fun acc n => (mkCheck fuel).node acc.2 n) (y, env) l := by
  intro l hne x y env
  cases l with
  | nil => exact absurd rfl hne
  | cons a t => simp [List.foldlM_cons]

theorem checkNodes_bare_vardef_isError :
    ∀ (pre : List Node) (fuel : Nat) (env : Env) (post : List Node)
      (name : String) (t : Ty) (pub : Bool),
      isError (checkNodes fuel env
        (pre ++ .variableDef name t none pub :: post)) = true := by
  intro pre
  induction pre with
  | nil =>
    intro fuel env post name t pub
    cases fuel with
    | zero => rfl
    | succ fuel =>
      unfold checkNodes
      simp only [mkCheck, List.nil_append, List.foldlM_cons]
      exact isError_bind _ _ (checkNode_bare_vardef_isError fuel env name t pub)
  | cons a pre' ih =>
    intro fuel env post name t pub
    cases fuel with
    | zero => rfl
    | succ fuel =>
      unfold checkNodes
      simp only [mkCheck, List.cons_append, List.foldlM_cons]
      rcases hx : (mkCheck fuel).node env a with e | acc
      · simp [isError, bind, Except.bind, hx]
      · have hne : pre' ++ Node.variableDef name t none pub :: post ≠ [] := by
          cases pre' <;> simp
        have := @checkNodesFold_env_only fuel
          (pre' ++ Node.variableDef name t none pub :: post) hne acc.1
          (some voidTy) acc.2
        simp only [bind, Except.bind, hx]
        rw [show ((acc.1, acc.2) : Option Ty × Env) = acc from rfl] at this
        rw [this]
        have h2 := ih (fuel + 1) acc.2 post name t pub
        unfold checkNodes at h2
        simpa [mkCheck] using h2

theorem checkNode_vardef_exact (fuel : Nat) (env : Env) (name : String)
    (t : Ty) (pub : Bool) :
    checkNode (fuel + 1) env (.variableDef name t none pub) =
      .error (if dictContains env.symbols name then
        typeErrorMsg ("Variable '" ++ name ++ "' already defined")
          (some "VariableDef")
      else typeErrorMsg "No type checker implemented for NoneType" none) := by
  unfold checkNode
  by_cases h : dictContains env.symbols name <;>
    simp [mkCheck, h, bind, Except.bind]

theorem checkNode_fndef_bare_vardef_isError :
    ∀ (fuel : Nat) (env : Env) (fname : String) (params : List Param)
      (rt : Option Ty) (pre post : List Node) (name : String) (t : Ty)
      (pub pub2 : Bool),
      isError (checkNode fuel env (.functionDef fname params rt
        (pre ++ .variableDef name t none pub :: post) pub2)) = true := by
  intro fuel env fname params rt pre post name t pub pub2
  cases fuel with
  | zero => rfl
  | succ fuel =>
    unfold checkNode
    by_cases h : dictContains env.functions fname
    · simp [mkCheck, h, isError]
    · simp only [mkCheck, h, Bool.false_eq_true, if_false, ite_false]
      rcases hp : addParams params
          { env with
            functions := dictSet env.functions fname
              (.functionDef fname params rt
                (pre ++ Node.variableDef name t none pub :: post) pub2),
            current_function := some fname } with e | env'
      · simp [bind, Except.bind, hp, isError]
      · simp only [bind, Except.bind, hp]
        apply isError_bind
        have := checkNodes_bare_vardef_isError pre fuel env' post name t pub
        unfold checkNodes at this
        exact this

/-- C10: a variable definition without an initializer parses (value stays
None) but never passes the type checker: check_VariableDef hands None to
the dispatching check, which finds no check_NoneType and raises — or the
duplicate-name check raises first; either way every checker state rejects
it, directly, inside any statement list, and inside any function body, so
no such declaration ever reaches code generation (the driver stops at a
checker error). -/
theorem C10_missing_initializer_rejected :
    (parseProgram "var x: int;" = .ok [.variableDef "x" intTy none false]) ∧
    (∀ (fuel : Nat) (env : Env) (name : String) (t : Ty) (pub : Bool),
      checkNode (fuel + 1) env (.variableDef name t none pub) =
        .error (if dictContains env.symbols name then
          typeErrorMsg ("Variable '" ++ name ++ "' already defined")
            (some "VariableDef")
        else typeErrorMsg "No type checker implemented for NoneType" none)) ∧
    (∀ (pre : List Node) (fuel : Nat) (env : Env) (post : List Node)
      (name : String) (t : Ty) (pub : Bool),
      isError (checkNodes fuel env
        (pre ++ .variableDef name t none pub :: post)) = true) ∧
    (∀ (fuel : Nat) (env : Env) (fname : String) (params : List Param)
      (rt : Option Ty) (pre post : List Node) (name : String) (t : Ty)
      (pub pub2 : Bool),
      isError (checkNode fuel env (.functionDef fname params rt
        (pre ++ .variableDef name t none pub :: post) pub2)) = true) :=
  ⟨rfl, checkNode_vardef_exact, checkNodes_bare_vardef_isError,
   checkNode_fndef_bare_vardef_isError⟩


/-- C9 counterexample: in the transitive scenario (main imports a then b,
and lib/a.sw itself imports b's symbol fb), the direct import of b in main
is short-circuited by the visited set and splices nothing, so fb appears
zero times in the resolved AST of main, not exactly once as claimed. -/
theorem C9_transitive_zero_counterexample :
    ((resolve_imports c9loader "lib/" 16 ⟨[], []⟩
        [.importNode ["a"] none, .importNode ["b"] none]).map
      (fun r => countExternNamed "fb" r.1)) = .ok 0 ∧ (0 : Nat) ≠ 1 :=
  ⟨rfl, by decide⟩

theorem resolve_imports_no_imports (loader : String → Option (List Node))
    (base : String) :
    ∀ (l : List Node) (fuel : Nat) (st : ImpState),
      (∀ n ∈ l, asImportNode n = none) → l.length ≤ fuel →
      resolve_imports loader base fuel st l = .ok (l, st) := by
  intro l
  induction l with
  | nil => intro fuel st _ _; cases fuel <;> rfl
  | cons a t ih =>
    intro fuel st h hf
    cases fuel with
    | zero => simp at hf
    | succ fuel =>
      have ha := h a (List.mem_cons_self a t)
      have hrec : resolve_imports loader base fuel st t = .ok (t, st) :=
        ih fuel st (fun n hn => h n (List.mem_cons_of_mem _ hn))
          (by simpa [Nat.succ_le_succ_iff] using hf)
      cases a <;> (try simp [asImportNode] at ha) <;>
        (unfold resolve_imports; simp [hrec, bind, Except.bind])

theorem mem_dedupFirst : ∀ (l seen : List String) (x : String),
    x ∈ l → x ∉ seen → x ∈ dedupFirst seen l := by
  intro l
  induction l with
  | nil => intro seen x hx _; simp at hx
  | cons s t ih =>
    intro seen x hx hns
    by_cases hm : s ∈ seen
    · rcases List.mem_cons.mp hx with rfl | hxt
      · exact absurd hm hns
      · simpa [dedupFirst, hm] using ih seen x hxt hns
    · rcases List.mem_cons.mp hx with rfl | hxt
      · simp [dedupFirst, hm]
      · by_cases hxs : x = s
        · subst hxs; simp [dedupFirst, hm]
        · have hx2 : x ∉ seen ++ [s] := by simp [hns, hxs]
          have hrec := ih (seen ++ [s]) x hxt hx2
          simp [dedupFirst, hm]
          exact Or.inr hrec

theorem dedupFirst_not_mem_seen : ∀ (l seen : List String) (x : String),
    x ∈ dedupFirst seen l → x ∉ seen := by
  intro l
  induction l with
  | nil => intro seen x hx; simp [dedupFirst] at hx
  | cons s t ih =>
    intro seen x hx
    by_cases hm : s ∈ seen
    · exact ih seen x (by simpa [dedupFirst, hm] using hx)
    · simp only [dedupFirst] at hx
      rw [if_neg (by simpa using hm)] at hx
      rcases List.mem_cons.mp hx with rfl | hx
      · exact hm
      · have h2 := ih (seen ++ [s]) x hx
        intro hseen
        exact h2 (by simp [hseen])

theorem dedupFirst_nodup : ∀ (l seen : List String), (dedupFirst seen l).Nodup := by
  intro l
  induction l with
  | nil => intro seen; simp [dedupFirst]
  | cons s t ih =>
    intro seen
    by_cases hm : s ∈ seen
    · simpa [dedupFirst, hm] using ih seen
    · simp only [dedupFirst]
      rw [if_neg (by simpa using hm)]
      rw [List.nodup_cons]
      refine ⟨?_, ih (seen ++ [s])⟩
      intro hmem
      have h2 := dedupFirst_not_mem_seen t (seen ++ [s]) s hmem
      simp at h2

theorem spliceSymbols_eq_filterMap (defs : List Node) :
    ∀ syms, spliceSymbols defs syms = syms.filterMap (spliceOne defs) := by
  intro syms
  induction syms with
  | nil => rfl
  | cons s t ih =>
    cases h : defs.find? (fun item => getNameAttr item = some s) with
    | none => simp [spliceSymbols, spliceOne, List.filterMap_cons, h, ih]
    | some orig =>
      cases hm : make_extern_node orig with
      | none => simp [spliceSymbols, spliceOne, List.filterMap_cons, h, hm, ih]
      | some e => simp [spliceSymbols, spliceOne, List.filterMap_cons, h, hm, ih]

theorem spliceOne_shape (defs : List Node) (hdef : ∀ n ∈ defs, isDefNode n = true)
    (sym : String) (e : Node) (h : spliceOne defs sym = some e) :
    ∃ iv rt ps, e = .externDecl sym iv rt ps false := by
  unfold spliceOne at h
  cases hf : defs.find? (fun item => getNameAttr item = some sym) with
  | none => rw [hf] at h; simp at h
  | some item =>
    rw [hf] at h
    have hmem := List.mem_of_find?_eq_some hf
    have hp : getNameAttr item = some sym := by
      have := List.find?_some hf
      simpa using this
    have hd := hdef item hmem
    cases item with
    | functionDef n params rt body pub =>
      simp only [getNameAttr, Option.some.injEq] at hp
      have h' : make_extern_node (Node.functionDef n params rt body pub)
          = some e := h
      simp only [make_extern_node, Option.some.injEq] at h'
      exact ⟨_, _, _, by rw [← hp]; exact h'.symm⟩
    | variableDef n t v pub =>
      simp only [getNameAttr, Option.some.injEq] at hp
      have h' : make_extern_node (Node.variableDef n t v pub) = some e := h
      simp only [make_extern_node, Option.some.injEq] at h'
      exact ⟨_, _, _, by rw [← hp]; exact h'.symm⟩
    | assignment nameA v => cases nameA <;> simp_all [isDefNode]
    | _ => simp_all [isDefNode]

theorem countExternNamed_filterMap_not_mem (defs : List Node)
    (hdef : ∀ n ∈ defs, isDefNode n = true) :
    ∀ (syms : List String) (name : String), name ∉ syms →
      countExternNamed name (syms.filterMap (spliceOne defs)) = 0 := by
  intro syms
  induction syms with
  | nil => intro name _; rfl
  | cons s t ih =>
    intro name hnm
    have hns : s ≠ name := fun hq => hnm (by simp [hq])
    have hnt : name ∉ t := fun hq => hnm (List.mem_cons_of_mem _ hq)
    have hrec := ih name hnt
    cases hs : spliceOne defs s with
    | none => simpa [List.filterMap_cons, hs] using hrec
    | some e =>
      obtain ⟨iv, rt, ps, rfl⟩ := spliceOne_shape defs hdef s e hs
      simpa [List.filterMap_cons, hs, countExternNamed, List.filter_cons, hns]
        using hrec

theorem countExternNamed_filterMap_nodup (defs : List Node)
    (hdef : ∀ n ∈ defs, isDefNode n = true) :
    ∀ (syms : List String), syms.Nodup → ∀ name ∈ syms,
      (spliceOne defs name).isSome = true →
      countExternNamed name (syms.filterMap (spliceOne defs)) = 1 := by
  intro syms
  induction syms with
  | nil => intro _ name hmem; simp at hmem
  | cons s t ih =>
    intro hnd name hmem hsome
    rcases List.mem_cons.mp hmem with rfl | hmt
    · obtain ⟨e, hs⟩ := Option.isSome_iff_exists.mp hsome
      obtain ⟨iv, rt, ps, rfl⟩ := spliceOne_shape defs hdef name e hs
      have hnotin : name ∉ t := (List.nodup_cons.mp hnd).1
      have h0 := countExternNamed_filterMap_not_mem defs hdef t name hnotin
      simpa [List.filterMap_cons, hs, countExternNamed, List.filter_cons] using h0
    · have hns : s ≠ name := fun hq =>
        (List.nodup_cons.mp hnd).1 (by rw [hq]; exact hmt)
      have hrec := ih (List.nodup_cons.mp hnd).2 name hmt hsome
      cases hs : spliceOne defs s with
      | none => simpa [List.filterMap_cons, hs] using hrec
      | some e =>
        obtain ⟨iv, rt, ps, rfl⟩ := spliceOne_shape defs hdef s e hs
        simpa [List.filterMap_cons, hs, countExternNamed, List.filter_cons, hns]
          using hrec

theorem spliceOne_isSome (defs : List Node)
    (hdef : ∀ n ∈ defs, isDefNode n = true) (name : String)
    (hmem : name ∈ defs.filterMap getNameAttr) :
    (spliceOne defs name).isSome = true := by
  obtain ⟨item, hitem, hname⟩ := List.mem_filterMap.mp hmem
  unfold spliceOne
  have hfind : (defs.find? (fun it => getNameAttr it = some name)).isSome := by
    rw [List.find?_isSome]
    exact ⟨item, hitem, by simp [hname]⟩
  obtain ⟨found, hf⟩ := Option.isSome_iff_exists.mp hfind
  rw [hf]
  have hd := hdef found (List.mem_of_find?_eq_some hf)
  cases found <;> simp_all [make_extern_node, isDefNode, Option.bind]

theorem resolve_imports_nil (loader : String → Option (List Node))
    (base : String) (fuel : Nat) (st : ImpState) :
    resolve_imports loader base fuel st [] = .ok ([], st) := by
  cases fuel <;> rfl

/-- C9 amended: two direct imports of the same module behave idempotently.
Resolving [import m, import m] yields exactly the AST of a single import m
(the second statement is skipped via the visited set keyed on the module
file path), the visited and imported-module lists record lib/m.sw once,
and every symbol defined in the module appears exactly once among the
spliced extern stubs. -/
theorem C9_amended_double_direct_idempotent
    (m : String) (defs : List Node) (fuel : Nat)
    (hno : ∀ n ∈ defs, asImportNode n = none)
    (hdef : ∀ n ∈ defs, isDefNode n = true)
    (hfuel : defs.length ≤ fuel) :
    resolve_imports (singleLoader m defs) "lib/" (fuel + 2) ⟨[], []⟩
        [.importNode [m] none, .importNode [m] none]
      = .ok (spliceSymbols defs (dedupFirst [] (defs.filterMap getNameAttr)),
             ⟨["lib/" ++ m ++ ".sw"], ["lib/" ++ m ++ ".sw"]⟩)
    ∧ resolve_imports (singleLoader m defs) "lib/" (fuel + 2) ⟨[], []⟩
        [.importNode [m] none]
      = .ok (spliceSymbols defs (dedupFirst [] (defs.filterMap getNameAttr)),
             ⟨["lib/" ++ m ++ ".sw"], ["lib/" ++ m ++ ".sw"]⟩)
    ∧ ∀ name ∈ defs.filterMap getNameAttr,
        countExternNamed name
          (spliceSymbols defs (dedupFirst [] (defs.filterMap getNameAttr))) = 1 := by
  have hpath : resolve_module_path "lib/" [m] = "lib/" ++ m ++ ".sw" := rfl
  have hmod : resolve_imports (singleLoader m defs) "lib/" (fuel + 1)
      ⟨["lib/" ++ m ++ ".sw"], ["lib/" ++ m ++ ".sw"]⟩ defs
      = .ok (defs, ⟨["lib/" ++ m ++ ".sw"], ["lib/" ++ m ++ ".sw"]⟩) :=
    resolve_imports_no_imports _ _ defs (fuel + 1) _ hno (Nat.le_succ_of_le hfuel)
  refine ⟨?_, ?_, ?_⟩
  · simp [resolve_imports, hpath, singleLoader, hmod, bind, Except.bind]
  · simp [resolve_imports, hpath, singleLoader, hmod, bind, Except.bind]
  · intro name hname
    rw [spliceSymbols_eq_filterMap]
    exact countExternNamed_filterMap_nodup defs hdef _ (dedupFirst_nodup _ _)
      name (mem_dedupFirst _ _ _ hname (by simp))
      (spliceOne_isSome defs hdef name hname)

/-- Witness: the double-import idempotence theorem applied to a one-function
module fa in lib/m.sw, all hypotheses discharged by computation. -/
theorem C9_amended_double_direct_idempotent_witness :
    resolve_imports (singleLoader "m" [Node.functionDef "fa" [] none [] false])
        "lib/" (1 + 2) ⟨[], []⟩
        [.importNode ["m"] none, .importNode ["m"] none]
      = .ok (spliceSymbols [Node.functionDef "fa" [] none [] false]
          (dedupFirst []
            ([Node.functionDef "fa" [] none [] false].filterMap getNameAttr)),
        ⟨["lib/" ++ "m" ++ ".sw"], ["lib/" ++ "m" ++ ".sw"]⟩)
    ∧ resolve_imports (singleLoader "m" [Node.functionDef "fa" [] none [] false])
        "lib/" (1 + 2) ⟨[], []⟩ [.importNode ["m"] none]
      = .ok (spliceSymbols [Node.functionDef "fa" [] none [] false]
          (dedupFirst []
            ([Node.functionDef "fa" [] none [] false].filterMap getNameAttr)),
        ⟨["lib/" ++ "m" ++ ".sw"], ["lib/" ++ "m" ++ ".sw"]⟩)
    ∧ countExternNamed "fa"
          (spliceSymbols [Node.functionDef "fa" [] none [] false]
            (dedupFirst []
              ([Node.functionDef "fa" [] none [] false].filterMap getNameAttr)))
          = 1 :=
  have h := C9_amended_double_direct_idempotent "m"
    [Node.functionDef "fa" [] none [] false] 1
    (fun n hn => by rcases List.mem_singleton.mp hn with rfl; rfl)
    (fun n hn => by rcases List.mem_singleton.mp hn with rfl; rfl)
    (by decide)
  ⟨h.1, h.2.1, h.2.2 "fa" (by decide)⟩

end Sweet
